import Mathlib

/-!
# RK3568 DDR devfreq driver (`rk3568_dmc.c`): firmware-mediated frequency controller

A shallow embedding of the production control flow of
`src/modules/rk3568_dmc/rk3568_dmc.c`:

* the SIP helpers `rk3568_dmc_get_rate`, `rk3568_dmc_round_rate`,
  `rk3568_dmc_set_rate`;
* the devfreq callback `rk3568_dmcfreq_target`;
* `rk3568_dmc_alloc_share_page` and `rk3568_dmcfreq_probe`, with the OPP-table build
  loop of step 4 and the test sequence that follows it.

Modelling conventions.

* `unsigned long` / `long` are 64 bit (arm64), `int` / `u32` are 32 bit.  Values are
  `Nat` / `Int`; every C conversion that can lose bits is written out
  (`u32`, `ulong`, `int_of`, `long_of`).
* Everything outside the driver (TF-A behind `arm_smccc_smc`, the PMU gate behind
  `rockchip_pmu_block` / `rockchip_pmu_unblock`) is an arbitrary deterministic state
  machine `Platform σ` over an arbitrary state type `σ`; theorems quantify over it.
* The shared command page is `World.page`; `rk3568_dmcfreq.params` only records
  whether the driver holds a mapping of it (non-NULL pointer).
* Every SMC, every PMU gate call, every mutex operation and every
  `dev_err` / `dev_warn` is appended to `World.trace` (most recent first).
  `dev_info` / `dev_dbg` diagnostics are not recorded.
* The kernel OPP library (`dev_pm_opp_add`, `devfreq_recommended_opp`) is Linux code
  outside this repository; it is modelled as pure functions on the device's sorted
  OPP table.
-/

namespace RK3568Dmc

/-! ## Constants -/

def ROCKCHIP_SIP_DRAM_FREQ : Nat := 0x82000008
def ROCKCHIP_SIP_SHARE_MEM : Nat := 0x82000009

def ROCKCHIP_SIP_CONFIG_DRAM_INIT : Nat := 0x00
def ROCKCHIP_SIP_CONFIG_DRAM_SET_RATE : Nat := 0x01
def ROCKCHIP_SIP_CONFIG_DRAM_ROUND_RATE : Nat := 0x02
def ROCKCHIP_SIP_CONFIG_DRAM_SET_AT_SR : Nat := 0x03
def ROCKCHIP_SIP_CONFIG_DRAM_GET_VERSION : Nat := 0x04
def ROCKCHIP_SIP_CONFIG_DRAM_GET_RATE : Nat := 0x05

def SHARE_PAGE_TYPE_DDR : Nat := 2

/-- Linux errno values used by the driver and by the OPP library. -/
def ENOMEM : Int := 12
def ENODEV : Int := 19
def EINVAL : Int := 22
def ERANGE : Int := 34

/-- Flag bit of `devfreq_recommended_opp` (Linux `devfreq.h`). -/
def DEVFREQ_FLAG_LEAST_UPPER_BOUND : Nat := 0x1

/-! ## Machine integers -/

/-- The C cast `(u32)x`. -/
def u32 (n : Nat) : Nat := n % 2 ^ 32

/-- A value stored in an `unsigned long` (64 bit). -/
def ulong (n : Nat) : Nat := n % 2 ^ 64

/-- The C cast `(int)x` of an unsigned value: low 32 bits, two's complement. -/
def int_of (n : Nat) : Int :=
  if n % 2 ^ 32 < 2 ^ 31 then ((n % 2 ^ 32 : Nat) : Int) else ((n % 2 ^ 32 : Nat) : Int) - 2 ^ 32

/-- The C cast `(long)x` of an unsigned value: low 64 bits, two's complement. -/
def long_of (n : Nat) : Int :=
  if n % 2 ^ 64 < 2 ^ 63 then ((n % 2 ^ 64 : Nat) : Int) else ((n % 2 ^ 64 : Nat) : Int) - 2 ^ 64

/-! ## Data model -/

/-- Shared memory page layout between kernel and TF-A (`struct share_params`). -/
structure share_params where
  hz : Nat
  lcdc_type : Nat
  vop : Nat
  vop_dclk_mode : Nat
  sr_idle_en : Nat
  addr_mcu_el3 : Nat
  wait_flag1 : Nat
  wait_flag0 : Nat
  complt_hwirq : Nat
deriving DecidableEq, Repr

/-- The four result registers of an SMC (`struct arm_smccc_res`). -/
structure arm_smccc_res where
  a0 : Nat
  a1 : Nat
  a2 : Nat
  a3 : Nat
deriving DecidableEq, Repr

/-- An operating point of the kernel OPP library: frequency in Hz and voltage in uV. -/
structure dev_pm_opp where
  rate : Nat
  u_volt : Nat
deriving DecidableEq, Repr

/-- The part of `struct device` the driver uses: the device's OPP table, which the
OPP library keeps sorted by ascending frequency. -/
structure device where
  opp_table : List dev_pm_opp
deriving DecidableEq, Repr

/-- Driver state (`struct rk3568_dmcfreq`).  `params` is `true` iff the pointer to the
shared page is non-NULL; `rate` is the current DDR rate in Hz; `can_scale` is true
if SET_RATE is available.  The remaining C fields (`dev`, `devfreq`, `profile`,
`ondemand_data`, `edev`, `lock`, `params_phys`) carry no data read by the modelled code. -/
structure rk3568_dmcfreq where
  params : Bool
  rate : Nat
  can_scale : Bool
deriving DecidableEq, Repr

/-- Text of the `dev_err` / `dev_warn` messages of the modelled functions. -/
inductive Msg where
  | set_rate_timeout (rate_hz : Nat)
  | pmu_block_failed (err : Int)
  | set_rate_failed (target_rate : Nat) (err : Int)
  | rate_unchanged (old_mhz : Nat)
  | share_page_alloc_failed (a0 : Nat)
  | share_page_ioremap_failed
  | edev_enable_failed
  | monitor_only_mode
  | no_ddr_frequency
  | devfreq_add_failed (err : Int)
deriving DecidableEq, Repr

/-- Observable actions of the driver.  `smc` carries the first four argument registers
(the driver always passes 0 in the other four) and the contents of the shared page at
the moment of the call; `pmu_block` carries the value the gate returned. -/
inductive Event where
  | smc (fid a1 a2 a3 : Nat) (page : share_params)
  | pmu_block (ret : Int)
  | pmu_unblock
  | mutex_lock
  | mutex_unlock
  | dev_err (m : Msg)
  | dev_warn (m : Msg)
deriving DecidableEq, Repr

/-- What one SMC leaves behind: result registers, the shared page as the firmware
left it, and the next state of the environment. -/
structure smc_out (σ : Type) where
  res : arm_smccc_res
  page : share_params
  env : σ

/-- The environment of the driver: the secure firmware reached through
`arm_smccc_smc` and the PMU gate (`rockchip_pmu_block` returns an `int`,
`rockchip_pmu_unblock` returns nothing). -/
structure Platform (σ : Type) where
  smc : σ → Nat → Nat → Nat → Nat → share_params → smc_out σ
  pmu_block : σ → Int × σ
  pmu_unblock : σ → σ

/-- Everything outside `struct rk3568_dmcfreq`: environment state, the shared page
and the trace of observable actions (most recent first). -/
structure World (σ : Type) where
  env : σ
  page : share_params
  trace : List Event

variable {σ : Type}

/-! ## Environment calls -/

/-- Append an observable action to the trace. -/
def World.emit (w : World σ) (e : Event) : World σ :=
  { w with trace := e :: w.trace }

/-- Call `arm_smccc_smc(fid, a1, a2, a3, 0, 0, 0, 0, &res)`; the result registers are
64 bit wide. -/
def arm_smccc_smc (P : Platform σ) (w : World σ) (fid a1 a2 a3 : Nat) :
    arm_smccc_res × World σ :=
  let o := P.smc w.env fid a1 a2 a3 w.page
  ({ a0 := ulong o.res.a0, a1 := ulong o.res.a1, a2 := ulong o.res.a2, a3 := ulong o.res.a3 },
   { env := o.env, page := o.page, trace := Event.smc fid a1 a2 a3 w.page :: w.trace })

/-- Call `rockchip_pmu_block()`. -/
def rockchip_pmu_block (P : Platform σ) (w : World σ) : Int × World σ :=
  let r := P.pmu_block w.env
  (r.1, { env := r.2, page := w.page, trace := Event.pmu_block r.1 :: w.trace })

/-- Call `rockchip_pmu_unblock()`. -/
def rockchip_pmu_unblock (P : Platform σ) (w : World σ) : World σ :=
  { env := P.pmu_unblock w.env, page := w.page, trace := Event.pmu_unblock :: w.trace }

def mutex_lock (w : World σ) : World σ := w.emit Event.mutex_lock

def mutex_unlock (w : World σ) : World σ := w.emit Event.mutex_unlock

def dev_err (w : World σ) (m : Msg) : World σ := w.emit (Event.dev_err m)

def dev_warn (w : World σ) (m : Msg) : World σ := w.emit (Event.dev_warn m)

/-! ## Kernel OPP library (Linux, outside this repository)

Modelled on the kernel's documented behaviour: the table is a list sorted by ascending
frequency; a lookup on a device without any OPP fails with `-ENODEV`, a lookup that
finds no match fails with `-ERANGE`. -/

/-- Insertion step of `dev_pm_opp_add`: walk the sorted list, place the new OPP before
the first larger one, and do not add an OPP whose frequency is already present. -/
def opp_list_add (new : dev_pm_opp) : List dev_pm_opp → List dev_pm_opp
  | [] => [new]
  | o :: os =>
    if o.rate < new.rate then o :: opp_list_add new os
    else if new.rate < o.rate then new :: o :: os
    else o :: os

/-- Kernel call `dev_pm_opp_add(dev, freq, u_volt)` (the driver ignores its result). -/
def dev_pm_opp_add (dev : device) (freq u_volt : Nat) : device :=
  { opp_table := opp_list_add { rate := freq, u_volt := u_volt } dev.opp_table }

/-- Kernel call `dev_pm_opp_find_freq_ceil`: first OPP with frequency at least `freq`. -/
def dev_pm_opp_find_freq_ceil (dev : device) (freq : Nat) : Except Int dev_pm_opp :=
  match dev.opp_table with
  | [] => .error (-ENODEV)
  | t =>
    match t.find? (fun o => decide (freq ≤ o.rate)) with
    | some o => .ok o
    | none => .error (-ERANGE)

/-- Kernel call `dev_pm_opp_find_freq_floor`: last OPP with frequency at most `freq`. -/
def dev_pm_opp_find_freq_floor (dev : device) (freq : Nat) : Except Int dev_pm_opp :=
  match dev.opp_table with
  | [] => .error (-ENODEV)
  | t =>
    match (t.takeWhile (fun o => decide (o.rate ≤ freq))).getLast? with
    | some o => .ok o
    | none => .error (-ERANGE)

/-- Kernel call `devfreq_recommended_opp(dev, &freq, flags)`: with
`DEVFREQ_FLAG_LEAST_UPPER_BOUND` the floor OPP, otherwise the ceil OPP; when that search
fails with `-ERANGE` the other direction is tried.  On success the caller's `*freq` is
the returned OPP's frequency. -/
def devfreq_recommended_opp (dev : device) (freq flags : Nat) : Except Int dev_pm_opp :=
  if flags &&& DEVFREQ_FLAG_LEAST_UPPER_BOUND ≠ 0 then
    match dev_pm_opp_find_freq_floor dev freq with
    | .ok o => .ok o
    | .error e => if e = -ERANGE then dev_pm_opp_find_freq_ceil dev freq else .error e
  else
    match dev_pm_opp_find_freq_ceil dev freq with
    | .ok o => .ok o
    | .error e => if e = -ERANGE then dev_pm_opp_find_freq_floor dev freq else .error e

/-! ## SIP helpers -/

/-- Source `rk3568_dmc_get_rate`: GET_RATE call; `res.a1` when `res.a0` is 0, else 0. -/
def rk3568_dmc_get_rate (P : Platform σ) (_dmcfreq : rk3568_dmcfreq) (w : World σ) :
    Nat × World σ :=
  let r := arm_smccc_smc P w ROCKCHIP_SIP_DRAM_FREQ SHARE_PAGE_TYPE_DDR 0
    ROCKCHIP_SIP_CONFIG_DRAM_GET_RATE
  if r.1.a0 = 0 then (r.1.a1, r.2) else (0, r.2)

/-- Source `rk3568_dmc_round_rate`: returns a `long`. -/
def rk3568_dmc_round_rate (P : Platform σ) (dmcfreq : rk3568_dmcfreq) (w : World σ)
    (rate : Nat) : Int × World σ :=
  if !dmcfreq.params then (0, w)
  else
    let w1 : World σ := { w with page := { w.page with hz := u32 rate } }
    let r := arm_smccc_smc P w1 ROCKCHIP_SIP_DRAM_FREQ SHARE_PAGE_TYPE_DDR 0
      ROCKCHIP_SIP_CONFIG_DRAM_ROUND_RATE
    if r.1.a0 = 0 then (long_of r.1.a1, r.2) else (0, r.2)

/-- Source `rk3568_dmc_set_rate`: returns an `int`. -/
def rk3568_dmc_set_rate (P : Platform σ) (dmcfreq : rk3568_dmcfreq) (w : World σ)
    (rate_hz : Nat) : Int × World σ :=
  if !dmcfreq.params then (-ENODEV, w)
  else
    let w1 : World σ := { w with page := { w.page with hz := u32 rate_hz } }
    let w2 : World σ := { w1 with page := { w1.page with lcdc_type := 0 } }
    let w3 : World σ := { w2 with page := { w2.page with wait_flag1 := 0 } }
    let w4 : World σ := { w3 with page := { w3.page with wait_flag0 := 0 } }
    let r := arm_smccc_smc P w4 ROCKCHIP_SIP_DRAM_FREQ SHARE_PAGE_TYPE_DDR 0
      ROCKCHIP_SIP_CONFIG_DRAM_SET_RATE
    let w5 := if int_of r.1.a1 = -6 then dev_err r.2 (Msg.set_rate_timeout rate_hz) else r.2
    (int_of r.1.a0, w5)

/-! ## devfreq callback -/

/-- Result of `rk3568_dmcfreq_target`: the returned `int`, the caller's `*freq`
afterwards, the driver state and the world. -/
structure target_out (σ : Type) where
  ret : Int
  freq : Nat
  dmcfreq : rk3568_dmcfreq
  w : World σ

/-- Label `out_unlock` of `rk3568_dmcfreq_target`. -/
def out_unlock (dmcfreq : rk3568_dmcfreq) (w : World σ) (freq : Nat) (err : Int) :
    target_out σ :=
  { ret := err, freq := freq, dmcfreq := dmcfreq, w := mutex_unlock w }

/-- Label `out_pmu` of `rk3568_dmcfreq_target` (falls through to `out_unlock`). -/
def out_pmu (P : Platform σ) (dmcfreq : rk3568_dmcfreq) (w : World σ) (freq : Nat)
    (err : Int) : target_out σ :=
  out_unlock dmcfreq (rockchip_pmu_unblock P w) freq err

/-- Source `rk3568_dmcfreq_target(dev, freq, flags)`. -/
def rk3568_dmcfreq_target (P : Platform σ) (dev : device) (dmcfreq : rk3568_dmcfreq)
    (w : World σ) (freq flags : Nat) : target_out σ :=
  if !dmcfreq.can_scale then
    { ret := 0, freq := dmcfreq.rate, dmcfreq := dmcfreq, w := w }
  else
    match devfreq_recommended_opp dev freq flags with
    | .error e => { ret := e, freq := freq, dmcfreq := dmcfreq, w := w }
    | .ok opp =>
      let target_rate := opp.rate
      if dmcfreq.rate = target_rate then
        { ret := 0, freq := target_rate, dmcfreq := dmcfreq, w := w }
      else
        let w1 := mutex_lock w
        let old_rate := dmcfreq.rate
        let rr := rk3568_dmc_round_rate P dmcfreq w1 target_rate
        if rr.1 ≠ long_of target_rate then
          out_unlock dmcfreq rr.2 target_rate (-EINVAL)
        else
          let pb := rockchip_pmu_block P rr.2
          if pb.1 ≠ 0 then
            out_unlock dmcfreq (dev_err pb.2 (Msg.pmu_block_failed pb.1)) target_rate pb.1
          else
            let sr := rk3568_dmc_set_rate P dmcfreq pb.2 target_rate
            if sr.1 ≠ 0 then
              out_pmu P dmcfreq (dev_err sr.2 (Msg.set_rate_failed target_rate sr.1))
                target_rate sr.1
            else
              let gr := rk3568_dmc_get_rate P dmcfreq sr.2
              let d1 := if gr.1 ≠ 0 then { dmcfreq with rate := gr.1 } else dmcfreq
              if d1.rate = old_rate ∧ target_rate ≠ old_rate then
                out_pmu P { d1 with can_scale := false }
                  (dev_warn gr.2 (Msg.rate_unchanged (old_rate / 1000000))) target_rate sr.1
              else
                out_pmu P d1 gr.2 target_rate sr.1

/-- A sequence of `rk3568_dmcfreq_target` calls, each with its own `(freq, flags)`. -/
def run_targets (P : Platform σ) (dev : device) :
    rk3568_dmcfreq → World σ → List (Nat × Nat) → rk3568_dmcfreq × World σ
  | d, w, [] => (d, w)
  | d, w, rq :: rest =>
    let r := rk3568_dmcfreq_target P dev d w rq.1 rq.2
    run_targets P dev r.dmcfreq r.w rest

/-! ## Probe, step 4: OPP table build -/

def candidate_hz : List Nat := [324000000, 528000000, 780000000, 1056000000]

/-- The `for` loop of step 4 of `rk3568_dmcfreq_probe` over the remaining candidates:
a candidate is added as an OPP (900000 uV) iff ROUND_RATE returns it unchanged. -/
def probe_build_opps (P : Platform σ) (data : rk3568_dmcfreq) :
    List Nat → device → World σ → device × World σ
  | [], dev, w => (dev, w)
  | c :: cs, dev, w =>
    let rr := rk3568_dmc_round_rate P data w c
    if rr.1 = long_of c then
      probe_build_opps P data cs (dev_pm_opp_add dev c 900000) rr.2
    else
      probe_build_opps P data cs dev rr.2

/-! ## A small concrete platform, for running the model -/

/-- Behaviour of the concrete firmware and gate below. -/
structure demo_cfg where
  /-- rates for which ROUND_RATE answers 0 instead of the rate itself -/
  rejects : List Nat
  /-- result register a0 of SET_RATE -/
  set_a0 : Nat
  /-- result register a1 of SET_RATE -/
  set_a1 : Nat
  /-- whether SET_RATE really switches the DDR clock to `hz` -/
  set_applies : Bool
  /-- return value of `rockchip_pmu_block()` -/
  block_ret : Int

/-- A firmware whose state is the running DDR rate: ROUND_RATE echoes `hz` unless it is
listed in `rejects`, SET_RATE answers `(set_a0, set_a1)` and switches to `hz` when
`set_applies`, GET_RATE reports the running rate; any other call fails. -/
def demo_platform (c : demo_cfg) : Platform Nat where
  smc := fun rate fid _ _ a3 pg =>
    if fid = ROCKCHIP_SIP_DRAM_FREQ ∧ a3 = ROCKCHIP_SIP_CONFIG_DRAM_ROUND_RATE then
      { res := { a0 := 0, a1 := if pg.hz ∈ c.rejects then 0 else pg.hz, a2 := 0, a3 := 0 },
        page := pg, env := rate }
    else if fid = ROCKCHIP_SIP_DRAM_FREQ ∧ a3 = ROCKCHIP_SIP_CONFIG_DRAM_SET_RATE then
      { res := { a0 := c.set_a0, a1 := c.set_a1, a2 := 0, a3 := 0 },
        page := pg, env := if c.set_applies then pg.hz else rate }
    else if fid = ROCKCHIP_SIP_DRAM_FREQ ∧ a3 = ROCKCHIP_SIP_CONFIG_DRAM_GET_RATE then
      { res := { a0 := 0, a1 := rate, a2 := 0, a3 := 0 }, page := pg, env := rate }
    else
      { res := { a0 := 2 ^ 64 - 1, a1 := 0, a2 := 0, a3 := 0 }, page := pg, env := rate }
  pmu_block := fun s => (c.block_ret, s)
  pmu_unblock := fun s => s

/-- A firmware that accepts every rate and applies it; the gate is free. -/
def cfg_good : demo_cfg :=
  { rejects := [], set_a0 := 0, set_a1 := 0, set_applies := true, block_ret := 0 }

/-- A world whose firmware runs the DDR at `rate`, with an all-zero page and no history. -/
def demo_world (rate : Nat) : World Nat :=
  { env := rate, page := ⟨0, 0, 0, 0, 0, 0, 0, 0, 0⟩, trace := [] }

/-- An OPP table holding the given frequencies, in the given order, at 900000 uV. -/
def demo_dev (freqs : List Nat) : device :=
  { opp_table := freqs.map (fun f => { rate := f, u_volt := 900000 }) }

/-! ## Trace observers -/

/-- The event is a DRAM_FREQ call with sub-command `sub`. -/
def is_dram_freq (sub : Nat) : Event → Bool
  | .smc fid _ _ a3 _ => fid == ROCKCHIP_SIP_DRAM_FREQ && a3 == sub
  | _ => false

/-- The event is an SMC of any kind. -/
def is_smc : Event → Bool
  | .smc _ _ _ _ _ => true
  | _ => false

/-- The event is a `rockchip_pmu_block()` call. -/
def is_block : Event → Bool
  | .pmu_block _ => true
  | _ => false

/-- The event is a `rockchip_pmu_block()` call that returned 0 (gate acquired). -/
def is_acquire : Event → Bool
  | .pmu_block r => r == 0
  | _ => false

/-- The event is a `rockchip_pmu_unblock()` call. -/
def is_unblock : Event → Bool
  | .pmu_unblock => true
  | _ => false

/-- Number of DRAM_FREQ calls with sub-command `sub` in a trace. -/
def smc_calls (sub : Nat) (t : List Event) : Nat := t.countP (is_dram_freq sub)

/-- Number of SMCs of any kind in a trace. -/
def smc_total (t : List Event) : Nat := t.countP is_smc

/-- Number of `rockchip_pmu_block()` calls in a trace. -/
def block_calls (t : List Event) : Nat := t.countP is_block

/-- Number of times the gate was acquired in a trace. -/
def block_acquired (t : List Event) : Nat := t.countP is_acquire

/-- Number of `rockchip_pmu_unblock()` calls in a trace. -/
def unblock_calls (t : List Event) : Nat := t.countP is_unblock

/-! ## The steps of one transition, as `rk3568_dmcfreq_target` issues them

For a request that passed the `can_scale` and `rate == target_rate` tests, with
`target_rate` the frequency of the recommended OPP. -/

/-- Validating: the ROUND_RATE call, made right after `mutex_lock`. -/
def step_validate (P : Platform σ) (d : rk3568_dmcfreq) (w : World σ) (target_rate : Nat) :
    Int × World σ :=
  rk3568_dmc_round_rate P d (mutex_lock w) target_rate

/-- Blocking: `rockchip_pmu_block()`, made in the world validation left. -/
def step_block (P : Platform σ) (d : rk3568_dmcfreq) (w : World σ) (target_rate : Nat) :
    Int × World σ :=
  rockchip_pmu_block P (step_validate P d w target_rate).2

/-- Committing: the SET_RATE call, made in the world blocking left. -/
def step_commit (P : Platform σ) (d : rk3568_dmcfreq) (w : World σ) (target_rate : Nat) :
    Int × World σ :=
  rk3568_dmc_set_rate P d (step_block P d w target_rate).2 target_rate

/-- Confirming: the GET_RATE call, made in the world committing left. -/
def step_confirm (P : Platform σ) (d : rk3568_dmcfreq) (w : World σ) (target_rate : Nat) :
    Nat × World σ :=
  rk3568_dmc_get_rate P d (step_commit P d w target_rate).2

/-! ## The SET_RATE exchange of `rk3568_dmc_set_rate` -/

/-- The shared page after the four `writel` stores of `rk3568_dmc_set_rate`. -/
def set_rate_page (pg : share_params) (rate_hz : Nat) : share_params :=
  { pg with hz := u32 rate_hz, lcdc_type := 0, wait_flag1 := 0, wait_flag0 := 0 }

/-- The result registers `rk3568_dmc_set_rate` receives from its SET_RATE call when it
is entered in world `w` with a mapped page. -/
def set_rate_reply (P : Platform σ) (w : World σ) (rate_hz : Nat) : arm_smccc_res :=
  (arm_smccc_smc P { w with page := set_rate_page w.page rate_hz } ROCKCHIP_SIP_DRAM_FREQ
    SHARE_PAGE_TYPE_DDR 0 ROCKCHIP_SIP_CONFIG_DRAM_SET_RATE).1

/-! ## Probe

The kernel services `rk3568_dmcfreq_probe` consumes besides the SMC interface are
outside this repository; their outcomes during one probe are taken as given
(`kernel_services`).  Delays (`mdelay`, `msleep`), `readl` of values that are only
printed, and `dev_err_probe` (which logs inside the kernel helper) leave no mark in the
model.  The helper thread `vop_sim_thread_fn` of tests T5/T6 only stores to the two wait
flags while the SMC runs; the page after that SMC is the one the platform reports. -/

/-- Outcomes of the kernel services used by one `rk3568_dmcfreq_probe` call. -/
structure kernel_services where
  /-- `devm_kzalloc` returned memory -/
  kzalloc_ok : Bool
  /-- `PTR_ERR` of `devfreq_event_get_edev_by_phandle` when it is an error pointer -/
  edev_err : Option Int
  /-- return value of `devfreq_event_enable_edev` -/
  edev_enable : Int
  /-- `ioremap` of the shared page returned a mapping -/
  ioremap_ok : Bool
  /-- `kthread_create` of test T5 returned a task -/
  kthread_t5_ok : Bool
  /-- `kthread_create` of test T6 returned a task -/
  kthread_t6_ok : Bool
  /-- `clk_get_rate` of "dmc_clk" when `devm_clk_get_optional` yields a clock -/
  dmc_clk : Option Nat
  /-- `PTR_ERR` of `devm_devfreq_add_device` when it is an error pointer -/
  devfreq_add_err : Option Int

/-- Result of `rk3568_dmc_alloc_share_page`: the returned `int`, the driver state and
the world. -/
structure alloc_out (σ : Type) where
  ret : Int
  data : rk3568_dmcfreq
  w : World σ

/-- Source `rk3568_dmc_alloc_share_page`. -/
def rk3568_dmc_alloc_share_page (P : Platform σ) (ks : kernel_services)
    (dmcfreq : rk3568_dmcfreq) (w : World σ) : alloc_out σ :=
  let r := arm_smccc_smc P w ROCKCHIP_SIP_SHARE_MEM 1 SHARE_PAGE_TYPE_DDR 0
  if r.1.a0 ≠ 0 then
    { ret := -ENODEV, data := dmcfreq,
      w := dev_warn r.2 (Msg.share_page_alloc_failed r.1.a0) }
  else if !ks.ioremap_ok then
    { ret := -ENOMEM, data := dmcfreq, w := dev_err r.2 Msg.share_page_ioremap_failed }
  else
    { ret := 0, data := { dmcfreq with params := true }, w := r.2 }

/-- Result of `rk3568_dmcfreq_probe`: the returned `int`, the device (its OPP table),
the driver state and the world. -/
structure probe_out (σ : Type) where
  ret : Int
  dev : device
  data : rk3568_dmcfreq
  w : World σ

/-- Label `err_edev` of the probe: `devfreq_event_disable_edev`, `iounmap`, return. -/
def err_edev (dev : device) (data : rk3568_dmcfreq) (w : World σ) (ret : Int) :
    probe_out σ :=
  { ret := ret, dev := dev, data := data, w := w }

/-- The end of the probe once the OPP of the current rate is known: the rate becomes
the OPP's frequency, the devfreq device is added. -/
def add_devfreq_device (ks : kernel_services) (dev : device) (data : rk3568_dmcfreq)
    (w : World σ) (opp : dev_pm_opp) : probe_out σ :=
  let data1 : rk3568_dmcfreq := { data with rate := opp.rate }
  match ks.devfreq_add_err with
  | some e => err_edev dev data1 (dev_err w (Msg.devfreq_add_failed e)) e
  | none => { ret := 0, dev := dev, data := data1, w := w }

/-- Label `setup_devfreq` of the probe: make sure the current rate is an OPP (adding it
when the lookup fails), then finish. -/
def setup_devfreq (ks : kernel_services) (dev : device) (data : rk3568_dmcfreq)
    (w : World σ) : probe_out σ :=
  match devfreq_recommended_opp dev data.rate 0 with
  | .ok opp => add_devfreq_device ks dev data w opp
  | .error _ =>
    let dev1 := dev_pm_opp_add dev data.rate 900000
    match devfreq_recommended_opp dev1 data.rate 0 with
    | .error e => err_edev dev1 data w e
    | .ok opp => add_devfreq_device ks dev1 data w opp

/-- Labels `fallback_clk` and `single_opp` of the probe (falling through to
`setup_devfreq`). -/
def fallback_clk (ks : kernel_services) (dev : device) (data : rk3568_dmcfreq)
    (w : World σ) : probe_out σ :=
  let data1 : rk3568_dmcfreq :=
    if data.rate = 0 then
      match ks.dmc_clk with
      | some r => { data with rate := ulong r }
      | none => data
    else data
  if data1.rate = 0 then
    err_edev dev data1 (dev_err w Msg.no_ddr_frequency) (-EINVAL)
  else
    setup_devfreq ks (dev_pm_opp_add dev data1.rate 900000) data1 w

/-- Label `monitor_only` of the probe (falling through to `fallback_clk`). -/
def monitor_only (ks : kernel_services) (dev : device) (data : rk3568_dmcfreq)
    (w : World σ) : probe_out σ :=
  fallback_clk ks dev { data with can_scale := false } w

/-- The macro `DUMP_DPLL` of the probe: its only effect is the GET_RATE call made for
the message. -/
def DUMP_DPLL (P : Platform σ) (data : rk3568_dmcfreq) (w : World σ) : World σ :=
  (rk3568_dmc_get_rate P data w).2

/-- The four stores of the BSP-convention SET_RATE used by the tests of the probe:
`hz`, `lcdc_type = 0`, `wait_flag1 = 1`, `wait_flag0 = 1`. -/
def bsp_set_rate_stores (w : World σ) (hz : Nat) : World σ :=
  { w with page := { w.page with hz := u32 hz, lcdc_type := 0, wait_flag1 := 1,
                                 wait_flag0 := 1 } }

/-- One DRAM_FREQ call with sub-command `sub`, result ignored. -/
def dram_freq_call (P : Platform σ) (w : World σ) (sub : Nat) : World σ :=
  (arm_smccc_smc P w ROCKCHIP_SIP_DRAM_FREQ SHARE_PAGE_TYPE_DDR 0 sub).2

/-- The test sequence of the probe between step 4 and `data->can_scale = true`, up to
but not including the final `data->rate = rk3568_dmc_get_rate(data)`. -/
def probe_tests (P : Platform σ) (ks : kernel_services) (data : rk3568_dmcfreq)
    (w : World σ) : World σ :=
  let w := DUMP_DPLL P data w
  -- T1
  let w := dram_freq_call P (bsp_set_rate_stores w 528000000) ROCKCHIP_SIP_CONFIG_DRAM_SET_RATE
  let w := DUMP_DPLL P data w
  let w := DUMP_DPLL P data w
  -- T2
  let w := dram_freq_call P (bsp_set_rate_stores w 528000000) ROCKCHIP_SIP_CONFIG_DRAM_SET_RATE
  let w : World σ := { w with page := { w.page with wait_flag1 := 0, wait_flag0 := 0 } }
  let w := DUMP_DPLL P data w
  -- T3
  let w := dram_freq_call P w ROCKCHIP_SIP_CONFIG_DRAM_SET_AT_SR
  -- T4
  let w := dram_freq_call P w 0x06
  let w := dram_freq_call P w 0x07
  let w := dram_freq_call P w 0x08
  -- T5
  let w :=
    if ks.kthread_t5_ok then
      DUMP_DPLL P data
        (dram_freq_call P (bsp_set_rate_stores w 528000000) ROCKCHIP_SIP_CONFIG_DRAM_SET_RATE)
    else w
  -- T6
  let w :=
    if ks.kthread_t6_ok then
      DUMP_DPLL P data
        (dram_freq_call P (bsp_set_rate_stores w 324000000) ROCKCHIP_SIP_CONFIG_DRAM_SET_RATE)
    else w
  DUMP_DPLL P data w

/-- Source `rk3568_dmcfreq_probe`. -/
def rk3568_dmcfreq_probe (P : Platform σ) (ks : kernel_services) (dev : device)
    (w : World σ) : probe_out σ :=
  let data : rk3568_dmcfreq := { params := false, rate := 0, can_scale := false }
  if !ks.kzalloc_ok then
    { ret := -ENOMEM, dev := dev, data := data, w := w }
  else
    match ks.edev_err with
    | some e => { ret := e, dev := dev, data := data, w := w }
    | none =>
      if ks.edev_enable < 0 then
        { ret := ks.edev_enable, dev := dev, data := data,
          w := dev_err w Msg.edev_enable_failed }
      else
        -- Step 1
        let a := rk3568_dmc_alloc_share_page P ks data w
        if a.ret ≠ 0 then
          monitor_only ks dev a.data (dev_warn a.w Msg.monitor_only_mode)
        else
          let v := arm_smccc_smc P a.w ROCKCHIP_SIP_DRAM_FREQ 0 0
            ROCKCHIP_SIP_CONFIG_DRAM_GET_VERSION
          -- Step 3
          let g := rk3568_dmc_get_rate P a.data v.2
          let data1 : rk3568_dmcfreq := { a.data with rate := g.1 }
          if data1.rate = 0 then
            fallback_clk ks dev data1 g.2
          else
            -- Step 4
            let b := probe_build_opps P data1 candidate_hz dev g.2
            let wt := probe_tests P ks data1 b.2
            let g2 := rk3568_dmc_get_rate P data1 wt
            let data2 : rk3568_dmcfreq := { data1 with rate := g2.1 }
            setup_devfreq ks b.1 { data2 with can_scale := true } g2.2

/-! ## The steps of a probe that obtains the page and a rate -/

/-- Step 1 of the probe: the shared-page allocation, on the zeroed driver state. -/
def probe_alloc (P : Platform σ) (ks : kernel_services) (w : World σ) : alloc_out σ :=
  rk3568_dmc_alloc_share_page P ks { params := false, rate := 0, can_scale := false } w

/-- Step 3 of the probe: the GET_RATE call, made after GET_VERSION. -/
def probe_rate (P : Platform σ) (ks : kernel_services) (w : World σ) : Nat × World σ :=
  rk3568_dmc_get_rate P (probe_alloc P ks w).data
    (arm_smccc_smc P (probe_alloc P ks w).w ROCKCHIP_SIP_DRAM_FREQ 0 0
      ROCKCHIP_SIP_CONFIG_DRAM_GET_VERSION).2

/-- Driver state during step 4 and the tests: page mapped, rate as read in step 3. -/
def probe_data (P : Platform σ) (ks : kernel_services) (w : World σ) : rk3568_dmcfreq :=
  { (probe_alloc P ks w).data with rate := (probe_rate P ks w).1 }

/-- Step 4 of the probe: the OPP table build. -/
def probe_build (P : Platform σ) (ks : kernel_services) (dev : device) (w : World σ) :
    device × World σ :=
  probe_build_opps P (probe_data P ks w) candidate_hz dev (probe_rate P ks w).2

/-- The last `data->rate = rk3568_dmc_get_rate(data)` of the probe, after the tests. -/
def probe_reread (P : Platform σ) (ks : kernel_services) (dev : device) (w : World σ) :
    Nat × World σ :=
  rk3568_dmc_get_rate P (probe_data P ks w)
    (probe_tests P ks (probe_data P ks w) (probe_build P ks dev w).2)

/-- The concrete firmware `demo_platform c`, which in addition grants the shared-page
request (SHARE_MEM answers a0 = 0 and a page address in a1). -/
def demo_probe_platform (c : demo_cfg) : Platform Nat where
  smc := fun rate fid a1 a2 a3 pg =>
    if fid = ROCKCHIP_SIP_SHARE_MEM then
      { res := { a0 := 0, a1 := 0x10000, a2 := 0, a3 := 0 }, page := pg, env := rate }
    else (demo_platform c).smc rate fid a1 a2 a3 pg
  pmu_block := (demo_platform c).pmu_block
  pmu_unblock := (demo_platform c).pmu_unblock

/-- Kernel services that all succeed; no "dmc_clk" clock. -/
def ks_good : kernel_services :=
  { kzalloc_ok := true, edev_err := none, edev_enable := 0, ioremap_ok := true,
    kthread_t5_ok := true, kthread_t6_ok := true, dmc_clk := none, devfreq_add_err := none }

/-! ## Trace lemmas for the SIP helpers -/

theorem countP_get_rate (p : Event → Bool) (P : Platform σ) (d : rk3568_dmcfreq)
    (w : World σ)
    (hp : ∀ pg, p (Event.smc ROCKCHIP_SIP_DRAM_FREQ SHARE_PAGE_TYPE_DDR 0
      ROCKCHIP_SIP_CONFIG_DRAM_GET_RATE pg) = false) :
    List.countP p (rk3568_dmc_get_rate P d w).2.trace = List.countP p w.trace := by
  unfold rk3568_dmc_get_rate
  simp only [arm_smccc_smc]
  split <;> simp [hp]

theorem countP_round_rate (p : Event → Bool) (P : Platform σ) (d : rk3568_dmcfreq)
    (w : World σ) (rate : Nat)
    (hp : ∀ pg, p (Event.smc ROCKCHIP_SIP_DRAM_FREQ SHARE_PAGE_TYPE_DDR 0
      ROCKCHIP_SIP_CONFIG_DRAM_ROUND_RATE pg) = false) :
    List.countP p (rk3568_dmc_round_rate P d w rate).2.trace = List.countP p w.trace := by
  unfold rk3568_dmc_round_rate
  cases d.params
  · rfl
  · simp only [arm_smccc_smc, Bool.not_true, Bool.false_eq_true, if_false]
    split <;> simp [hp]

theorem countP_set_rate (p : Event → Bool) (P : Platform σ) (d : rk3568_dmcfreq)
    (w : World σ) (rate_hz : Nat)
    (hp : ∀ pg, p (Event.smc ROCKCHIP_SIP_DRAM_FREQ SHARE_PAGE_TYPE_DDR 0
      ROCKCHIP_SIP_CONFIG_DRAM_SET_RATE pg) = false)
    (hq : ∀ m, p (Event.dev_err m) = false) :
    List.countP p (rk3568_dmc_set_rate P d w rate_hz).2.trace = List.countP p w.trace := by
  unfold rk3568_dmc_set_rate
  cases d.params
  · rfl
  · simp only [arm_smccc_smc, Bool.not_true, Bool.false_eq_true, if_false, dev_err, World.emit]
    split <;> simp [hp, hq]

theorem countP_step_validate (p : Event → Bool) (P : Platform σ) (d : rk3568_dmcfreq)
    (w : World σ) (t : Nat)
    (hp : ∀ pg, p (Event.smc ROCKCHIP_SIP_DRAM_FREQ SHARE_PAGE_TYPE_DDR 0
      ROCKCHIP_SIP_CONFIG_DRAM_ROUND_RATE pg) = false)
    (hl : p Event.mutex_lock = false) :
    List.countP p (step_validate P d w t).2.trace = List.countP p w.trace := by
  unfold step_validate
  rw [countP_round_rate p P d _ t hp]
  simp [mutex_lock, World.emit, hl]

theorem step_block_trace (P : Platform σ) (d : rk3568_dmcfreq) (w : World σ) (t : Nat) :
    (step_block P d w t).2.trace =
      Event.pmu_block (step_block P d w t).1 :: (step_validate P d w t).2.trace := rfl

theorem countP_step_commit (p : Event → Bool) (P : Platform σ) (d : rk3568_dmcfreq)
    (w : World σ) (t : Nat)
    (hp : ∀ pg, p (Event.smc ROCKCHIP_SIP_DRAM_FREQ SHARE_PAGE_TYPE_DDR 0
      ROCKCHIP_SIP_CONFIG_DRAM_SET_RATE pg) = false)
    (hq : ∀ m, p (Event.dev_err m) = false) :
    List.countP p (step_commit P d w t).2.trace = List.countP p (step_block P d w t).2.trace :=
  countP_set_rate p P d _ t hp hq

theorem countP_step_confirm (p : Event → Bool) (P : Platform σ) (d : rk3568_dmcfreq)
    (w : World σ) (t : Nat)
    (hp : ∀ pg, p (Event.smc ROCKCHIP_SIP_DRAM_FREQ SHARE_PAGE_TYPE_DDR 0
      ROCKCHIP_SIP_CONFIG_DRAM_GET_RATE pg) = false) :
    List.countP p (step_confirm P d w t).2.trace = List.countP p (step_commit P d w t).2.trace :=
  countP_get_rate p P d _ hp

/-! ## The paths through `rk3568_dmcfreq_target` -/

section paths

variable (P : Platform σ) (dev : device) (d : rk3568_dmcfreq) (w : World σ)
  (freq flags : Nat) (opp : dev_pm_opp)

theorem target_validation_rejected
    (hscale : d.can_scale = true)
    (hopp : devfreq_recommended_opp dev freq flags = .ok opp)
    (hne : opp.rate ≠ d.rate)
    (hrej : (step_validate P d w opp.rate).1 ≠ long_of opp.rate) :
    rk3568_dmcfreq_target P dev d w freq flags =
      out_unlock d (step_validate P d w opp.rate).2 opp.rate (-EINVAL) := by
  have hne2 : ¬ d.rate = opp.rate := fun h => hne h.symm
  simp only [step_validate] at hrej ⊢
  simp only [rk3568_dmcfreq_target, hscale, hopp, hne2]
  simp [hrej]

theorem target_block_failed
    (hscale : d.can_scale = true)
    (hopp : devfreq_recommended_opp dev freq flags = .ok opp)
    (hne : opp.rate ≠ d.rate)
    (hval : (step_validate P d w opp.rate).1 = long_of opp.rate)
    (hblk : (step_block P d w opp.rate).1 ≠ 0) :
    rk3568_dmcfreq_target P dev d w freq flags =
      out_unlock d
        (dev_err (step_block P d w opp.rate).2
          (Msg.pmu_block_failed (step_block P d w opp.rate).1))
        opp.rate (step_block P d w opp.rate).1 := by
  have hne2 : ¬ d.rate = opp.rate := fun h => hne h.symm
  simp only [step_block, step_validate] at hval hblk ⊢
  simp only [rk3568_dmcfreq_target, hscale, hopp, hne2]
  simp [hval, hblk]

theorem target_commit_failed
    (hscale : d.can_scale = true)
    (hopp : devfreq_recommended_opp dev freq flags = .ok opp)
    (hne : opp.rate ≠ d.rate)
    (hval : (step_validate P d w opp.rate).1 = long_of opp.rate)
    (hblk : (step_block P d w opp.rate).1 = 0)
    (hset : (step_commit P d w opp.rate).1 ≠ 0) :
    rk3568_dmcfreq_target P dev d w freq flags =
      out_pmu P d
        (dev_err (step_commit P d w opp.rate).2
          (Msg.set_rate_failed opp.rate (step_commit P d w opp.rate).1))
        opp.rate (step_commit P d w opp.rate).1 := by
  have hne2 : ¬ d.rate = opp.rate := fun h => hne h.symm
  simp only [step_commit, step_block, step_validate] at hval hblk hset ⊢
  simp only [rk3568_dmcfreq_target, hscale, hopp, hne2]
  simp [hval, hblk, hset]

theorem target_committed
    (hscale : d.can_scale = true)
    (hopp : devfreq_recommended_opp dev freq flags = .ok opp)
    (hne : opp.rate ≠ d.rate)
    (hval : (step_validate P d w opp.rate).1 = long_of opp.rate)
    (hblk : (step_block P d w opp.rate).1 = 0)
    (hset : (step_commit P d w opp.rate).1 = 0) :
    rk3568_dmcfreq_target P dev d w freq flags =
      if (step_confirm P d w opp.rate).1 = 0 ∨ (step_confirm P d w opp.rate).1 = d.rate then
        out_pmu P { d with can_scale := false }
          (dev_warn (step_confirm P d w opp.rate).2 (Msg.rate_unchanged (d.rate / 1000000)))
          opp.rate 0
      else
        out_pmu P { d with rate := (step_confirm P d w opp.rate).1 }
          (step_confirm P d w opp.rate).2 opp.rate 0 := by
  have hne2 : ¬ d.rate = opp.rate := fun h => hne h.symm
  simp only [step_confirm, step_commit, step_block, step_validate] at hval hblk hset ⊢
  simp only [rk3568_dmcfreq_target, hscale, hopp, hne2]
  simp only [hval, hblk, hset]
  generalize rk3568_dmc_get_rate P d
      (rk3568_dmc_set_rate P d
        (rockchip_pmu_block P
          (rk3568_dmc_round_rate P d (mutex_lock w) opp.rate).2).2 opp.rate).2 = gr
  by_cases h0 : gr.1 = 0
  · simp [h0, hne]
  · by_cases h1 : gr.1 = d.rate
    · have h2 : ¬ d.rate = 0 := fun h => h0 (h1.trans h)
      simp [h1, h2, hne]
    · simp [h0, h1, hne]

end paths

/-! ## OPP lookups on a sorted table -/

theorem find_ceil_of_mem (t : List dev_pm_opp) (f : Nat)
    (hs : t.Pairwise (fun a b => a.rate < b.rate)) (hm : ∃ o ∈ t, o.rate = f) :
    ∃ o, t.find? (fun o => decide (f ≤ o.rate)) = some o ∧ o.rate = f := by
  induction t with
  | nil => obtain ⟨o, ho, _⟩ := hm; cases ho
  | cons h t ih =>
    rw [List.pairwise_cons] at hs
    obtain ⟨o, ho, hof⟩ := hm
    by_cases hle : f ≤ h.rate
    · refine ⟨h, by simp [List.find?, hle], ?_⟩
      rcases List.mem_cons.1 ho with rfl | hin
      · exact hof
      · have hx : h.rate < o.rate := hs.1 o hin
        omega
    · have hin : o ∈ t := by
        rcases List.mem_cons.1 ho with rfl | hin
        · omega
        · exact hin
      obtain ⟨o2, h2, h3⟩ := ih hs.2 ⟨o, hin, hof⟩
      exact ⟨o2, by simp [List.find?, hle, h2], h3⟩

theorem find_floor_of_mem (t : List dev_pm_opp) (f : Nat)
    (hs : t.Pairwise (fun a b => a.rate < b.rate)) (hm : ∃ o ∈ t, o.rate = f) :
    ∃ o, (t.takeWhile (fun o => decide (o.rate ≤ f))).getLast? = some o ∧ o.rate = f := by
  induction t with
  | nil => obtain ⟨o, ho, _⟩ := hm; cases ho
  | cons h t ih =>
    rw [List.pairwise_cons] at hs
    obtain ⟨o, ho, hof⟩ := hm
    rcases List.mem_cons.1 ho with rfl | hin
    · refine ⟨o, ?_, hof⟩
      have hnil : t.takeWhile (fun o => decide (o.rate ≤ f)) = [] := by
        cases t with
        | nil => rfl
        | cons x xs =>
          have hx : o.rate < x.rate := hs.1 x (List.mem_cons_self _ _)
          have hd : decide (x.rate ≤ f) = false := by
            rw [decide_eq_false_iff_not]; omega
          simp [List.takeWhile, hd]
      simp [List.takeWhile, hof, hnil]
    · have hlt : h.rate < o.rate := hs.1 o hin
      obtain ⟨o2, h2, h3⟩ := ih hs.2 ⟨o, hin, hof⟩
      refine ⟨o2, ?_, h3⟩
      have hle : h.rate ≤ f := by omega
      simp only [List.takeWhile, hle, decide_True]
      cases hl : t.takeWhile (fun o => decide (o.rate ≤ f)) with
      | nil => rw [hl] at h2; simp at h2
      | cons x xs => rw [hl] at h2; simpa [List.getLast?_cons_cons] using h2

theorem recommended_opp_of_mem (dev : device) (f flags : Nat)
    (hs : dev.opp_table.Pairwise (fun a b => a.rate < b.rate))
    (hm : ∃ o ∈ dev.opp_table, o.rate = f) :
    ∃ o, devfreq_recommended_opp dev f flags = .ok o ∧ o.rate = f := by
  have hne : dev.opp_table ≠ [] := by
    obtain ⟨o, ho, _⟩ := hm
    exact List.ne_nil_of_mem ho
  obtain ⟨o1, hc, hc2⟩ := find_ceil_of_mem dev.opp_table f hs hm
  obtain ⟨o2, hf, hf2⟩ := find_floor_of_mem dev.opp_table f hs hm
  have hceil : dev_pm_opp_find_freq_ceil dev f = .ok o1 := by
    unfold dev_pm_opp_find_freq_ceil
    split
    · rename_i h; exact absurd h hne
    · rw [hc]
  have hfloor : dev_pm_opp_find_freq_floor dev f = .ok o2 := by
    unfold dev_pm_opp_find_freq_floor
    split
    · rename_i h; exact absurd h hne
    · rw [hf]
  unfold devfreq_recommended_opp
  split
  · exact ⟨o2, by rw [hfloor], hf2⟩
  · exact ⟨o1, by rw [hceil], hc2⟩

/-! ## C1: validation precedes mutation -/

/-- C1, as the code behaves: the frequency that is validated is the one of the OPP the
request resolves to (`devfreq_recommended_opp`), not the requested frequency itself.
With scaling enabled and the request resolving to an OPP whose frequency differs
from the confirmed rate, if the ROUND_RATE round-trip of that frequency returns anything
but the frequency itself, `rk3568_dmcfreq_target` returns `-EINVAL`, issues no
`rockchip_pmu_block()`, no `rockchip_pmu_unblock()`, no SET_RATE and no GET_RATE call,
and leaves the driver state (confirmed rate, `can_scale`) unchanged. -/
theorem C1_validation_precedes_mutation (P : Platform σ) (dev : device)
    (d : rk3568_dmcfreq) (w : World σ) (freq flags : Nat) (opp : dev_pm_opp)
    (hscale : d.can_scale = true)
    (hopp : devfreq_recommended_opp dev freq flags = .ok opp)
    (hne : opp.rate ≠ d.rate)
    (hrej : (step_validate P d w opp.rate).1 ≠ long_of opp.rate) :
    (rk3568_dmcfreq_target P dev d w freq flags).ret = -EINVAL ∧
    block_calls (rk3568_dmcfreq_target P dev d w freq flags).w.trace = block_calls w.trace ∧
    unblock_calls (rk3568_dmcfreq_target P dev d w freq flags).w.trace
      = unblock_calls w.trace ∧
    smc_calls ROCKCHIP_SIP_CONFIG_DRAM_SET_RATE
        (rk3568_dmcfreq_target P dev d w freq flags).w.trace
      = smc_calls ROCKCHIP_SIP_CONFIG_DRAM_SET_RATE w.trace ∧
    smc_calls ROCKCHIP_SIP_CONFIG_DRAM_GET_RATE
        (rk3568_dmcfreq_target P dev d w freq flags).w.trace
      = smc_calls ROCKCHIP_SIP_CONFIG_DRAM_GET_RATE w.trace ∧
    (rk3568_dmcfreq_target P dev d w freq flags).dmcfreq.rate = d.rate ∧
    (rk3568_dmcfreq_target P dev d w freq flags).dmcfreq.can_scale = d.can_scale := by
  rw [target_validation_rejected P dev d w freq flags opp hscale hopp hne hrej]
  simp only [out_unlock, mutex_unlock, World.emit, block_calls, unblock_calls, smc_calls,
    List.countP_cons]
  rw [countP_step_validate _ _ _ _ _ (fun _ => rfl) rfl,
    countP_step_validate _ _ _ _ _ (fun _ => rfl) rfl,
    countP_step_validate _ _ _ _ _ (fun _ => rfl) rfl,
    countP_step_validate _ _ _ _ _ (fun _ => rfl) rfl]
  simp [is_block, is_unblock, is_dram_freq]

/-- Confirmed 324 MHz, table 324/528/1056 MHz, request 600 MHz, firmware rejecting
1056 MHz: the request resolves to the 1056 MHz OPP, whose round-trip answers 0, so the
call fails with `-EINVAL` without touching the gate. -/
theorem C1_validation_precedes_mutation_witness :
    (rk3568_dmcfreq_target (demo_platform { cfg_good with rejects := [1056000000] })
        (demo_dev [324000000, 528000000, 1056000000]) ⟨true, 324000000, true⟩
        (demo_world 324000000) 600000000 0).ret = -EINVAL ∧
    block_calls (rk3568_dmcfreq_target (demo_platform { cfg_good with rejects := [1056000000] })
        (demo_dev [324000000, 528000000, 1056000000]) ⟨true, 324000000, true⟩
        (demo_world 324000000) 600000000 0).w.trace = 0 :=
  have h := C1_validation_precedes_mutation
    (demo_platform { cfg_good with rejects := [1056000000] })
    (demo_dev [324000000, 528000000, 1056000000]) ⟨true, 324000000, true⟩
    (demo_world 324000000) 600000000 0 ⟨1056000000, 900000⟩ rfl rfl (by decide) (by decide)
  ⟨h.1, h.2.1⟩

/-- The claim fails when it is read of the frequency the call is made with.  Confirmed
324 MHz, scaling enabled, table 324/528/1056 MHz, request 600 MHz (Scenario C of the
specification), firmware answering 0 to ROUND_RATE of 600 MHz: the round-trip of the
target differs from the target, yet the request is resolved to the 1056 MHz OPP, which
the firmware accepts, and the run returns 0, takes the gate, issues SET_RATE and ends
with the confirmed rate 1056 MHz. -/
theorem C1_counterexample :
    (rk3568_dmc_round_rate (demo_platform { cfg_good with rejects := [600000000] })
        ⟨true, 324000000, true⟩ (mutex_lock (demo_world 324000000)) 600000000).1
      ≠ long_of 600000000 ∧
    (rk3568_dmcfreq_target (demo_platform { cfg_good with rejects := [600000000] })
        (demo_dev [324000000, 528000000, 1056000000]) ⟨true, 324000000, true⟩
        (demo_world 324000000) 600000000 0).ret = 0 ∧
    block_calls (rk3568_dmcfreq_target (demo_platform { cfg_good with rejects := [600000000] })
        (demo_dev [324000000, 528000000, 1056000000]) ⟨true, 324000000, true⟩
        (demo_world 324000000) 600000000 0).w.trace = 1 ∧
    smc_calls ROCKCHIP_SIP_CONFIG_DRAM_SET_RATE
      (rk3568_dmcfreq_target (demo_platform { cfg_good with rejects := [600000000] })
        (demo_dev [324000000, 528000000, 1056000000]) ⟨true, 324000000, true⟩
        (demo_world 324000000) 600000000 0).w.trace = 1 ∧
    (rk3568_dmcfreq_target (demo_platform { cfg_good with rejects := [600000000] })
        (demo_dev [324000000, 528000000, 1056000000]) ⟨true, 324000000, true⟩
        (demo_world 324000000) 600000000 0).dmcfreq.rate = 1056000000 := by
  decide

/-! ## C2: exclusive-gate balance -/

/-- C2. One run of `rk3568_dmcfreq_target`, from any state, for any request and any
behaviour of firmware and gate, calls `rockchip_pmu_unblock()` exactly as often as
`rockchip_pmu_block()` returned success in that run: both counts grow by the same
`k`, which is 0 or 1; and the gate is requested at most once. -/
theorem C2_gate_balance (P : Platform σ) (dev : device) (d : rk3568_dmcfreq)
    (w : World σ) (freq flags : Nat) :
    ∃ k, k ≤ 1 ∧
      block_acquired (rk3568_dmcfreq_target P dev d w freq flags).w.trace
        = block_acquired w.trace + k ∧
      unblock_calls (rk3568_dmcfreq_target P dev d w freq flags).w.trace
        = unblock_calls w.trace + k ∧
      block_calls (rk3568_dmcfreq_target P dev d w freq flags).w.trace
        ≤ block_calls w.trace + 1 := by
  by_cases hscale : d.can_scale = true
  swap
  · exact ⟨0, by simp [rk3568_dmcfreq_target, hscale]⟩
  cases hopp : devfreq_recommended_opp dev freq flags with
  | error e => exact ⟨0, by simp [rk3568_dmcfreq_target, hscale, hopp]⟩
  | ok opp =>
    by_cases hne : opp.rate = d.rate
    · exact ⟨0, by simp [rk3568_dmcfreq_target, hscale, hopp, hne]⟩
    by_cases hval : (step_validate P d w opp.rate).1 = long_of opp.rate
    swap
    · refine ⟨0, Nat.zero_le 1, ?_⟩
      rw [target_validation_rejected P dev d w freq flags opp hscale hopp hne hval]
      simp only [out_unlock, mutex_unlock, World.emit, block_acquired, unblock_calls,
        block_calls, List.countP_cons]
      rw [countP_step_validate _ _ _ _ _ (fun _ => rfl) rfl,
        countP_step_validate _ _ _ _ _ (fun _ => rfl) rfl,
        countP_step_validate _ _ _ _ _ (fun _ => rfl) rfl]
      simp [is_acquire, is_unblock, is_block]
    by_cases hblk : (step_block P d w opp.rate).1 = 0
    swap
    · refine ⟨0, Nat.zero_le 1, ?_⟩
      rw [target_block_failed P dev d w freq flags opp hscale hopp hne hval hblk]
      simp only [out_unlock, mutex_unlock, dev_err, World.emit, block_acquired, unblock_calls,
        block_calls, List.countP_cons, step_block_trace]
      rw [countP_step_validate _ _ _ _ _ (fun _ => rfl) rfl,
        countP_step_validate _ _ _ _ _ (fun _ => rfl) rfl,
        countP_step_validate _ _ _ _ _ (fun _ => rfl) rfl]
      simp [is_acquire, is_unblock, is_block, hblk]
    refine ⟨1, le_refl 1, ?_⟩
    by_cases hset : (step_commit P d w opp.rate).1 = 0
    swap
    · rw [target_commit_failed P dev d w freq flags opp hscale hopp hne hval hblk hset]
      simp only [out_pmu, out_unlock, mutex_unlock, dev_err, rockchip_pmu_unblock, World.emit,
        block_acquired, unblock_calls, block_calls, List.countP_cons]
      rw [countP_step_commit _ _ _ _ _ (fun _ => rfl) (fun _ => rfl),
        countP_step_commit _ _ _ _ _ (fun _ => rfl) (fun _ => rfl),
        countP_step_commit _ _ _ _ _ (fun _ => rfl) (fun _ => rfl)]
      simp only [step_block_trace, List.countP_cons]
      rw [countP_step_validate _ _ _ _ _ (fun _ => rfl) rfl,
        countP_step_validate _ _ _ _ _ (fun _ => rfl) rfl,
        countP_step_validate _ _ _ _ _ (fun _ => rfl) rfl]
      simp [is_acquire, is_unblock, is_block, hblk]
    · rw [target_committed P dev d w freq flags opp hscale hopp hne hval hblk hset]
      split <;>
      · simp only [out_pmu, out_unlock, mutex_unlock, dev_warn, rockchip_pmu_unblock,
          World.emit, block_acquired, unblock_calls, block_calls, List.countP_cons]
        rw [countP_step_confirm _ _ _ _ _ (fun _ => rfl),
          countP_step_confirm _ _ _ _ _ (fun _ => rfl),
          countP_step_confirm _ _ _ _ _ (fun _ => rfl),
          countP_step_commit _ _ _ _ _ (fun _ => rfl) (fun _ => rfl),
          countP_step_commit _ _ _ _ _ (fun _ => rfl) (fun _ => rfl),
          countP_step_commit _ _ _ _ _ (fun _ => rfl) (fun _ => rfl)]
        simp only [step_block_trace, List.countP_cons]
        rw [countP_step_validate _ _ _ _ _ (fun _ => rfl) rfl,
          countP_step_validate _ _ _ _ _ (fun _ => rfl) rfl,
          countP_step_validate _ _ _ _ _ (fun _ => rfl) rfl]
        simp [is_acquire, is_unblock, is_block, hblk]

/-! ## C3: successful transition -/

/-- C3. With scaling enabled and the request resolving to an OPP frequency different
from the confirmed rate: if ROUND_RATE returns that frequency, `rockchip_pmu_block()`
returns 0, SET_RATE returns status 0 and GET_RATE returns a non-zero rate `r`, then
`rk3568_dmcfreq_target` returns 0 and the confirmed rate afterwards is `r`. -/
theorem C3_successful_transition (P : Platform σ) (dev : device) (d : rk3568_dmcfreq)
    (w : World σ) (freq flags : Nat) (opp : dev_pm_opp)
    (hscale : d.can_scale = true)
    (hopp : devfreq_recommended_opp dev freq flags = .ok opp)
    (hne : opp.rate ≠ d.rate)
    (hval : (step_validate P d w opp.rate).1 = long_of opp.rate)
    (hblk : (step_block P d w opp.rate).1 = 0)
    (hset : (step_commit P d w opp.rate).1 = 0)
    (hget : (step_confirm P d w opp.rate).1 ≠ 0) :
    (rk3568_dmcfreq_target P dev d w freq flags).ret = 0 ∧
    (rk3568_dmcfreq_target P dev d w freq flags).dmcfreq.rate
      = (step_confirm P d w opp.rate).1 := by
  rw [target_committed P dev d w freq flags opp hscale hopp hne hval hblk hset]
  split
  · rename_i h
    rcases h with h | h
    · exact absurd h hget
    · simp [out_pmu, out_unlock, h]
  · simp [out_pmu, out_unlock]

/-- Scenario A of the specification: confirmed 324 MHz, request 528 MHz, firmware accepts
and applies it, GET_RATE reports 528 MHz: success, confirmed 528 MHz. -/
theorem C3_successful_transition_witness :
    (rk3568_dmcfreq_target (demo_platform cfg_good)
        (demo_dev [324000000, 528000000, 1056000000]) ⟨true, 324000000, true⟩
        (demo_world 324000000) 528000000 0).ret = 0 ∧
    (rk3568_dmcfreq_target (demo_platform cfg_good)
        (demo_dev [324000000, 528000000, 1056000000]) ⟨true, 324000000, true⟩
        (demo_world 324000000) 528000000 0).dmcfreq.rate = 528000000 :=
  C3_successful_transition (demo_platform cfg_good)
    (demo_dev [324000000, 528000000, 1056000000]) ⟨true, 324000000, true⟩
    (demo_world 324000000) 528000000 0 ⟨528000000, 900000⟩
    rfl rfl (by decide) (by decide) (by decide) (by decide) (by decide)

/-! ## C4: degrade on stale rate -/

/-- C4. With scaling enabled, the request resolving to an OPP frequency different from
the old confirmed rate, validation and blocking successful and SET_RATE status 0:
if GET_RATE returned 0 (nothing adopted) or the old rate, then afterwards `can_scale`
is false and the confirmed rate is still the old one; if GET_RATE returned a non-zero
rate different from the old one, `can_scale` stays true (and that rate is adopted). -/
theorem C4_degrade_on_stale_rate (P : Platform σ) (dev : device) (d : rk3568_dmcfreq)
    (w : World σ) (freq flags : Nat) (opp : dev_pm_opp)
    (hscale : d.can_scale = true)
    (hopp : devfreq_recommended_opp dev freq flags = .ok opp)
    (hne : opp.rate ≠ d.rate)
    (hval : (step_validate P d w opp.rate).1 = long_of opp.rate)
    (hblk : (step_block P d w opp.rate).1 = 0)
    (hset : (step_commit P d w opp.rate).1 = 0) :
    (((step_confirm P d w opp.rate).1 = 0 ∨ (step_confirm P d w opp.rate).1 = d.rate) →
      (rk3568_dmcfreq_target P dev d w freq flags).dmcfreq.can_scale = false ∧
      (rk3568_dmcfreq_target P dev d w freq flags).dmcfreq.rate = d.rate) ∧
    (((step_confirm P d w opp.rate).1 ≠ 0 ∧ (step_confirm P d w opp.rate).1 ≠ d.rate) →
      (rk3568_dmcfreq_target P dev d w freq flags).dmcfreq.can_scale = true ∧
      (rk3568_dmcfreq_target P dev d w freq flags).dmcfreq.rate
        = (step_confirm P d w opp.rate).1) := by
  rw [target_committed P dev d w freq flags opp hscale hopp hne hval hblk hset]
  constructor
  · intro h
    rw [if_pos h]
    simp [out_pmu, out_unlock]
  · intro h
    rw [if_neg (by rintro (h0 | h1); exact h.1 h0; exact h.2 h1)]
    simp [out_pmu, out_unlock, hscale]

/-- Confirmed 324 MHz, request 528 MHz.  When SET_RATE answers 0 without switching the
clock and GET_RATE still reports 324 MHz, scaling is disabled and the confirmed rate
stays 324 MHz; when the clock is switched and GET_RATE reports 528 MHz, scaling stays
enabled. -/
theorem C4_degrade_on_stale_rate_witness :
    ((rk3568_dmcfreq_target (demo_platform { cfg_good with set_applies := false })
        (demo_dev [324000000, 528000000, 1056000000]) ⟨true, 324000000, true⟩
        (demo_world 324000000) 528000000 0).dmcfreq.can_scale = false ∧
      (rk3568_dmcfreq_target (demo_platform { cfg_good with set_applies := false })
        (demo_dev [324000000, 528000000, 1056000000]) ⟨true, 324000000, true⟩
        (demo_world 324000000) 528000000 0).dmcfreq.rate = 324000000) ∧
    (rk3568_dmcfreq_target (demo_platform cfg_good)
        (demo_dev [324000000, 528000000, 1056000000]) ⟨true, 324000000, true⟩
        (demo_world 324000000) 528000000 0).dmcfreq.can_scale = true :=
  ⟨(C4_degrade_on_stale_rate (demo_platform { cfg_good with set_applies := false })
      (demo_dev [324000000, 528000000, 1056000000]) ⟨true, 324000000, true⟩
      (demo_world 324000000) 528000000 0 ⟨528000000, 900000⟩
      rfl rfl (by decide) (by decide) (by decide) (by decide)).1 (Or.inr (by decide)),
    ((C4_degrade_on_stale_rate (demo_platform cfg_good)
      (demo_dev [324000000, 528000000, 1056000000]) ⟨true, 324000000, true⟩
      (demo_world 324000000) 528000000 0 ⟨528000000, 900000⟩
      rfl rfl (by decide) (by decide) (by decide) (by decide)).2
        ⟨by decide, by decide⟩).1⟩

/-! ## C5: what the caller is told about a stale rate -/

/-- C5, as the code behaves: with scaling enabled, the request resolving to an OPP
frequency different from the confirmed rate, validation and blocking successful,
SET_RATE status 0 and GET_RATE returning the unchanged old rate,
`rk3568_dmcfreq_target` returns 0 (success) to the caller; the anomaly shows only in
the `dev_warn` it emits before releasing the gate and in `can_scale` becoming false,
with the confirmed rate unchanged. -/
theorem C5_stale_rate_returns_success (P : Platform σ) (dev : device)
    (d : rk3568_dmcfreq) (w : World σ) (freq flags : Nat) (opp : dev_pm_opp)
    (hscale : d.can_scale = true)
    (hopp : devfreq_recommended_opp dev freq flags = .ok opp)
    (hne : opp.rate ≠ d.rate)
    (hval : (step_validate P d w opp.rate).1 = long_of opp.rate)
    (hblk : (step_block P d w opp.rate).1 = 0)
    (hset : (step_commit P d w opp.rate).1 = 0)
    (hget : (step_confirm P d w opp.rate).1 = d.rate) :
    (rk3568_dmcfreq_target P dev d w freq flags).ret = 0 ∧
    (rk3568_dmcfreq_target P dev d w freq flags).w.trace =
      Event.mutex_unlock :: Event.pmu_unblock ::
        Event.dev_warn (Msg.rate_unchanged (d.rate / 1000000)) ::
        (step_confirm P d w opp.rate).2.trace ∧
    (rk3568_dmcfreq_target P dev d w freq flags).dmcfreq.can_scale = false ∧
    (rk3568_dmcfreq_target P dev d w freq flags).dmcfreq.rate = d.rate := by
  rw [target_committed P dev d w freq flags opp hscale hopp hne hval hblk hset]
  rw [if_pos (Or.inr hget)]
  simp [out_pmu, out_unlock, mutex_unlock, rockchip_pmu_unblock, dev_warn, World.emit]

/-- Scenario B of the specification: confirmed 324 MHz, request 528 MHz, SET_RATE status 0,
GET_RATE still 324 MHz; the caller receives 0. -/
theorem C5_stale_rate_returns_success_witness :
    (rk3568_dmcfreq_target (demo_platform { cfg_good with set_applies := false })
        (demo_dev [324000000, 528000000, 1056000000]) ⟨true, 324000000, true⟩
        (demo_world 324000000) 528000000 0).ret = 0 :=
  (C5_stale_rate_returns_success (demo_platform { cfg_good with set_applies := false })
    (demo_dev [324000000, 528000000, 1056000000]) ⟨true, 324000000, true⟩
    (demo_world 324000000) 528000000 0 ⟨528000000, 900000⟩
    rfl rfl (by decide) (by decide) (by decide) (by decide) (by decide)).1

/-- Scenario B of the specification (confirmed 324 MHz, scaling enabled, request
528 MHz resolving to the 528 MHz OPP, ROUND_RATE echoes 528 MHz, the gate is acquired,
SET_RATE status 0, GET_RATE still 324 MHz): every premise of the claim holds, and the
value returned to the caller is 0, not an error. -/
theorem C5_counterexample :
    devfreq_recommended_opp (demo_dev [324000000, 528000000, 1056000000]) 528000000 0
      = .ok ⟨528000000, 900000⟩ ∧
    (step_validate (demo_platform { cfg_good with set_applies := false })
        ⟨true, 324000000, true⟩ (demo_world 324000000) 528000000).1 = long_of 528000000 ∧
    (step_block (demo_platform { cfg_good with set_applies := false })
        ⟨true, 324000000, true⟩ (demo_world 324000000) 528000000).1 = 0 ∧
    (step_commit (demo_platform { cfg_good with set_applies := false })
        ⟨true, 324000000, true⟩ (demo_world 324000000) 528000000).1 = 0 ∧
    (step_confirm (demo_platform { cfg_good with set_applies := false })
        ⟨true, 324000000, true⟩ (demo_world 324000000) 528000000).1 = 324000000 ∧
    (rk3568_dmcfreq_target (demo_platform { cfg_good with set_applies := false })
        (demo_dev [324000000, 528000000, 1056000000]) ⟨true, 324000000, true⟩
        (demo_world 324000000) 528000000 0).ret = 0 :=
  ⟨rfl, by decide, by decide, by decide, by decide, by decide⟩

/-! ## C6: permanent degrade -/

/-- C6. In a state with `can_scale` false, `rk3568_dmcfreq_target` for any request
returns 0 with `*freq` set to the confirmed rate and leaves driver state and world
(hence the trace: no SMC, no gate call) exactly as they were; consequently any sequence
of such calls ends in the same state and world, with `can_scale` still false. -/
theorem C6_permanent_degrade (P : Platform σ) (dev : device) (d : rk3568_dmcfreq)
    (w : World σ) (hoff : d.can_scale = false) :
    (∀ freq flags,
      (rk3568_dmcfreq_target P dev d w freq flags).ret = 0 ∧
      (rk3568_dmcfreq_target P dev d w freq flags).freq = d.rate ∧
      (rk3568_dmcfreq_target P dev d w freq flags).dmcfreq = d ∧
      (rk3568_dmcfreq_target P dev d w freq flags).w = w) ∧
    (∀ reqs : List (Nat × Nat),
      run_targets P dev d w reqs = (d, w) ∧
      (run_targets P dev d w reqs).1.can_scale = false) := by
  have h1 : ∀ freq flags, rk3568_dmcfreq_target P dev d w freq flags =
      { ret := 0, freq := d.rate, dmcfreq := d, w := w } := by
    intro freq flags
    simp [rk3568_dmcfreq_target, hoff]
  refine ⟨fun freq flags => by simp [h1], ?_⟩
  have h2 : ∀ reqs : List (Nat × Nat), run_targets P dev d w reqs = (d, w) := by
    intro reqs
    induction reqs with
    | nil => rfl
    | cons rq rest ih => simp only [run_targets, h1]; exact ih
  intro reqs
  rw [h2 reqs]
  exact ⟨rfl, hoff⟩

/-- A degraded controller (confirmed 324 MHz) asked for 528 MHz and then 1056 MHz on a
firmware that would accept both: nothing happens. -/
theorem C6_permanent_degrade_witness :
    run_targets (demo_platform cfg_good) (demo_dev [324000000, 528000000, 1056000000])
      ⟨true, 324000000, false⟩ (demo_world 324000000)
      [(528000000, 0), (1056000000, 0)]
      = (⟨true, 324000000, false⟩, demo_world 324000000) :=
  ((C6_permanent_degrade (demo_platform cfg_good)
    (demo_dev [324000000, 528000000, 1056000000]) ⟨true, 324000000, false⟩
    (demo_world 324000000) rfl).2 [(528000000, 0), (1056000000, 0)]).1

/-! ## C7: idempotence -/

/-- C7, as the code behaves: a request for the confirmed rate itself returns 0, leaves
the driver state and the world untouched (no SMC, no gate call, nothing logged) and
reports the confirmed rate in `*freq`, whenever scaling is disabled or the OPP table
(strictly increasing in frequency) holds an OPP at the confirmed rate. -/
theorem C7_idempotence (P : Platform σ) (dev : device) (d : rk3568_dmcfreq)
    (w : World σ) (flags : Nat)
    (h : d.can_scale = false ∨
      (dev.opp_table.Pairwise (fun a b => a.rate < b.rate) ∧
        ∃ o ∈ dev.opp_table, o.rate = d.rate)) :
    (rk3568_dmcfreq_target P dev d w d.rate flags).ret = 0 ∧
    (rk3568_dmcfreq_target P dev d w d.rate flags).freq = d.rate ∧
    (rk3568_dmcfreq_target P dev d w d.rate flags).w = w ∧
    (rk3568_dmcfreq_target P dev d w d.rate flags).dmcfreq = d := by
  by_cases hscale : d.can_scale = true
  · rcases h with h | ⟨hs, hm⟩
    · rw [h] at hscale; cases hscale
    · obtain ⟨o, ho, hr⟩ := recommended_opp_of_mem dev d.rate flags hs hm
      simp [rk3568_dmcfreq_target, hscale, ho, hr]
  · simp [rk3568_dmcfreq_target, hscale]

/-- Confirmed 324 MHz with scaling enabled and the table 324/528/1056 MHz: a request
for 324 MHz succeeds and leaves the (empty) trace empty. -/
theorem C7_idempotence_witness :
    (rk3568_dmcfreq_target (demo_platform cfg_good)
        (demo_dev [324000000, 528000000, 1056000000]) ⟨true, 324000000, true⟩
        (demo_world 324000000) 324000000 0).ret = 0 ∧
    (rk3568_dmcfreq_target (demo_platform cfg_good)
        (demo_dev [324000000, 528000000, 1056000000]) ⟨true, 324000000, true⟩
        (demo_world 324000000) 324000000 0).w = demo_world 324000000 :=
  have h := C7_idempotence (demo_platform cfg_good)
    (demo_dev [324000000, 528000000, 1056000000]) ⟨true, 324000000, true⟩
    (demo_world 324000000) 0
    (Or.inr ⟨by simp [demo_dev], ⟨324000000, 900000⟩, by simp [demo_dev], rfl⟩)
  ⟨h.1, h.2.2.1⟩

/-- The claim fails for a catalog that lacks the confirmed rate: confirmed 400 MHz,
scaling enabled, table 324/528/1056 MHz.  The request for 400 MHz is resolved to the
528 MHz OPP, so the run takes the gate, issues SET_RATE and moves the confirmed rate
to 528 MHz. -/
theorem C7_counterexample :
    block_calls (rk3568_dmcfreq_target (demo_platform cfg_good)
        (demo_dev [324000000, 528000000, 1056000000]) ⟨true, 400000000, true⟩
        (demo_world 400000000) 400000000 0).w.trace = 1 ∧
    smc_calls ROCKCHIP_SIP_CONFIG_DRAM_SET_RATE (rk3568_dmcfreq_target (demo_platform cfg_good)
        (demo_dev [324000000, 528000000, 1056000000]) ⟨true, 400000000, true⟩
        (demo_world 400000000) 400000000 0).w.trace = 1 ∧
    (rk3568_dmcfreq_target (demo_platform cfg_good)
        (demo_dev [324000000, 528000000, 1056000000]) ⟨true, 400000000, true⟩
        (demo_world 400000000) 400000000 0).dmcfreq.rate = 528000000 := by
  decide

/-! ## C8: catalog correctness -/

theorem probe_build_opps_fold (P : Platform σ) (data : rk3568_dmcfreq) (rt : Nat → Int)
    (hrt : ∀ w c, (rk3568_dmc_round_rate P data w c).1 = rt c) :
    ∀ (cs : List Nat) (dev : device) (w : World σ),
      (probe_build_opps P data cs dev w).1 =
        cs.foldl (fun dv c => if rt c = long_of c then dev_pm_opp_add dv c 900000 else dv)
          dev := by
  intro cs
  induction cs with
  | nil => intro dev w; rfl
  | cons c cs ih =>
    intro dev w
    simp only [probe_build_opps, List.foldl, hrt]
    split <;> exact ih _ _

/-- C8. If ROUND_RATE behaves as a function `rt` of the rate, the OPP table built by
step 4 of `rk3568_dmcfreq_probe` on a device without OPPs holds exactly the candidates
`c` of `[324, 528, 780, 1056]` MHz with `rt c = c`, in the original order; its
frequencies are strictly increasing and free of duplicates; and when 780 MHz
round-trips to 0 and the other three to themselves it is `[324, 528, 1056]` MHz. -/
theorem C8_catalog_correctness (P : Platform σ) (data : rk3568_dmcfreq) (dev : device)
    (w : World σ) (rt : Nat → Int)
    (hrt : ∀ w c, (rk3568_dmc_round_rate P data w c).1 = rt c)
    (hempty : dev.opp_table = []) :
    ((probe_build_opps P data candidate_hz dev w).1.opp_table.map (fun o => o.rate)
      = candidate_hz.filter (fun c => decide (rt c = (c : Int)))) ∧
    ((probe_build_opps P data candidate_hz dev w).1.opp_table.map
      (fun o => o.rate)).Pairwise (fun a b => a < b) ∧
    ((probe_build_opps P data candidate_hz dev w).1.opp_table.map (fun o => o.rate)).Nodup ∧
    (rt 324000000 = 324000000 → rt 528000000 = 528000000 → rt 780000000 = 0 →
      rt 1056000000 = 1056000000 →
      (probe_build_opps P data candidate_hz dev w).1.opp_table.map (fun o => o.rate)
        = [324000000, 528000000, 1056000000]) := by
  obtain ⟨t⟩ := dev
  simp only at hempty
  subst hempty
  have l1 : long_of 324000000 = 324000000 := by decide
  have l2 : long_of 528000000 = 528000000 := by decide
  have l3 : long_of 780000000 = 780000000 := by decide
  have l4 : long_of 1056000000 = 1056000000 := by decide
  rw [probe_build_opps_fold P data rt hrt]
  simp only [candidate_hz, List.foldl, l1, l2, l3, l4]
  by_cases h1 : rt 324000000 = 324000000 <;> by_cases h2 : rt 528000000 = 528000000 <;>
    by_cases h3 : rt 780000000 = 780000000 <;> by_cases h4 : rt 1056000000 = 1056000000 <;>
    simp [h1, h2, h3, h4, dev_pm_opp_add, opp_list_add, List.filter]

/-- Scenario of the specification: the firmware round-trips 780 MHz to 0 and every other
rate to itself; the table built on an empty device is 324/528/1056 MHz. -/
theorem C8_catalog_correctness_witness :
    (probe_build_opps (demo_platform { cfg_good with rejects := [780000000] })
        ⟨true, 324000000, false⟩ candidate_hz ⟨[]⟩ (demo_world 324000000)).1.opp_table.map
      (fun o => o.rate) = [324000000, 528000000, 1056000000] :=
  (C8_catalog_correctness (demo_platform { cfg_good with rejects := [780000000] })
    ⟨true, 324000000, false⟩ ⟨[]⟩ (demo_world 324000000)
    (fun c => (rk3568_dmc_round_rate (demo_platform { cfg_good with rejects := [780000000] })
      ⟨true, 324000000, false⟩ (demo_world 0) c).1)
    (fun _ _ => rfl) rfl).2.2.2 (by decide) (by decide) (by decide) (by decide)

/-! ## C9: failure atomicity at the blocking and committing steps -/

/-- C9. With scaling enabled and a validated target (the request resolves to an OPP
frequency different from the confirmed rate and ROUND_RATE returns it unchanged):
(i) if `rockchip_pmu_block()` returns a non-zero value, `rk3568_dmcfreq_target` returns
that value, issues no SET_RATE and no GET_RATE call and leaves the driver state
unchanged; (ii) if the gate is acquired and SET_RATE returns a non-zero status,
`rk3568_dmcfreq_target` returns that status, issues no GET_RATE call and leaves the
driver state unchanged. -/
theorem C9_failure_atomicity (P : Platform σ) (dev : device) (d : rk3568_dmcfreq)
    (w : World σ) (freq flags : Nat) (opp : dev_pm_opp)
    (hscale : d.can_scale = true)
    (hopp : devfreq_recommended_opp dev freq flags = .ok opp)
    (hne : opp.rate ≠ d.rate)
    (hval : (step_validate P d w opp.rate).1 = long_of opp.rate) :
    ((step_block P d w opp.rate).1 ≠ 0 →
      (rk3568_dmcfreq_target P dev d w freq flags).ret = (step_block P d w opp.rate).1 ∧
      (rk3568_dmcfreq_target P dev d w freq flags).ret ≠ 0 ∧
      smc_calls ROCKCHIP_SIP_CONFIG_DRAM_SET_RATE
          (rk3568_dmcfreq_target P dev d w freq flags).w.trace
        = smc_calls ROCKCHIP_SIP_CONFIG_DRAM_SET_RATE w.trace ∧
      smc_calls ROCKCHIP_SIP_CONFIG_DRAM_GET_RATE
          (rk3568_dmcfreq_target P dev d w freq flags).w.trace
        = smc_calls ROCKCHIP_SIP_CONFIG_DRAM_GET_RATE w.trace ∧
      (rk3568_dmcfreq_target P dev d w freq flags).dmcfreq = d) ∧
    ((step_block P d w opp.rate).1 = 0 → (step_commit P d w opp.rate).1 ≠ 0 →
      (rk3568_dmcfreq_target P dev d w freq flags).ret = (step_commit P d w opp.rate).1 ∧
      (rk3568_dmcfreq_target P dev d w freq flags).ret ≠ 0 ∧
      smc_calls ROCKCHIP_SIP_CONFIG_DRAM_GET_RATE
          (rk3568_dmcfreq_target P dev d w freq flags).w.trace
        = smc_calls ROCKCHIP_SIP_CONFIG_DRAM_GET_RATE w.trace ∧
      (rk3568_dmcfreq_target P dev d w freq flags).dmcfreq = d) := by
  constructor
  · intro hblk
    rw [target_block_failed P dev d w freq flags opp hscale hopp hne hval hblk]
    refine ⟨rfl, hblk, ?_, ?_, rfl⟩ <;>
    · simp only [out_unlock, mutex_unlock, dev_err, World.emit, smc_calls, List.countP_cons,
        step_block_trace]
      rw [countP_step_validate _ _ _ _ _ (fun _ => rfl) rfl]
      simp [is_dram_freq]
  · intro hblk hset
    rw [target_commit_failed P dev d w freq flags opp hscale hopp hne hval hblk hset]
    refine ⟨rfl, hset, ?_, rfl⟩
    simp only [out_pmu, out_unlock, mutex_unlock, rockchip_pmu_unblock, dev_err, World.emit,
      smc_calls, List.countP_cons]
    rw [countP_step_commit _ _ _ _ _ (fun _ => rfl) (fun _ => rfl)]
    simp only [step_block_trace, List.countP_cons]
    rw [countP_step_validate _ _ _ _ _ (fun _ => rfl) rfl]
    simp [is_dram_freq]

/-- A validated 528 MHz request at confirmed 324 MHz.  With the gate busy
(`rockchip_pmu_block()` returns -16) the call fails with -16; with the gate free and
SET_RATE answering status 5 the call fails with 5; the driver state is unchanged in
both runs. -/
theorem C9_failure_atomicity_witness :
    ((rk3568_dmcfreq_target (demo_platform { cfg_good with block_ret := -16 })
        (demo_dev [324000000, 528000000, 1056000000]) ⟨true, 324000000, true⟩
        (demo_world 324000000) 528000000 0).ret = -16 ∧
      (rk3568_dmcfreq_target (demo_platform { cfg_good with block_ret := -16 })
        (demo_dev [324000000, 528000000, 1056000000]) ⟨true, 324000000, true⟩
        (demo_world 324000000) 528000000 0).dmcfreq = ⟨true, 324000000, true⟩) ∧
    ((rk3568_dmcfreq_target (demo_platform { cfg_good with set_a0 := 5 })
        (demo_dev [324000000, 528000000, 1056000000]) ⟨true, 324000000, true⟩
        (demo_world 324000000) 528000000 0).ret = 5 ∧
      (rk3568_dmcfreq_target (demo_platform { cfg_good with set_a0 := 5 })
        (demo_dev [324000000, 528000000, 1056000000]) ⟨true, 324000000, true⟩
        (demo_world 324000000) 528000000 0).dmcfreq = ⟨true, 324000000, true⟩) :=
  have h1 := (C9_failure_atomicity (demo_platform { cfg_good with block_ret := -16 })
    (demo_dev [324000000, 528000000, 1056000000]) ⟨true, 324000000, true⟩
    (demo_world 324000000) 528000000 0 ⟨528000000, 900000⟩
    rfl rfl (by decide) (by decide)).1 (by decide)
  have h2 := (C9_failure_atomicity (demo_platform { cfg_good with set_a0 := 5 })
    (demo_dev [324000000, 528000000, 1056000000]) ⟨true, 324000000, true⟩
    (demo_world 324000000) 528000000 0 ⟨528000000, 900000⟩
    rfl rfl (by decide) (by decide)).2 (by decide) (by decide)
  ⟨⟨h1.1.trans (by decide), h1.2.2.2.2⟩, ⟨h2.1.trans (by decide), h2.2.2.2⟩⟩

/-! ## C10: the firmware timeout code -/

theorem set_rate_mapped (P : Platform σ) (d : rk3568_dmcfreq) (w : World σ) (rate_hz : Nat)
    (hmap : d.params = true) :
    rk3568_dmc_set_rate P d w rate_hz =
      (int_of (set_rate_reply P w rate_hz).a0,
        if int_of (set_rate_reply P w rate_hz).a1 = -6 then
          dev_err (arm_smccc_smc P { w with page := set_rate_page w.page rate_hz }
            ROCKCHIP_SIP_DRAM_FREQ SHARE_PAGE_TYPE_DDR 0
            ROCKCHIP_SIP_CONFIG_DRAM_SET_RATE).2 (Msg.set_rate_timeout rate_hz)
        else
          (arm_smccc_smc P { w with page := set_rate_page w.page rate_hz }
            ROCKCHIP_SIP_DRAM_FREQ SHARE_PAGE_TYPE_DDR 0
            ROCKCHIP_SIP_CONFIG_DRAM_SET_RATE).2) := by
  simp [rk3568_dmc_set_rate, hmap, set_rate_reply, set_rate_page]

/-- C10, as the code behaves: when the reply to the SET_RATE call of a transition
carries the timeout code -6 in result register a1, `rk3568_dmc_set_rate` logs the
timeout with `dev_err` and returns the status register a0 (as `int`) unchanged.
`rk3568_dmcfreq_target` therefore returns an error, makes no GET_RATE call and keeps
the driver state only when that status is non-zero; when it is zero the call counts as
a successful commit, the read-back GET_RATE is issued and 0 is returned. -/
theorem C10_timeout_status (P : Platform σ) (dev : device) (d : rk3568_dmcfreq)
    (w : World σ) (freq flags : Nat) (opp : dev_pm_opp)
    (hscale : d.can_scale = true)
    (hopp : devfreq_recommended_opp dev freq flags = .ok opp)
    (hne : opp.rate ≠ d.rate)
    (hval : (step_validate P d w opp.rate).1 = long_of opp.rate)
    (hblk : (step_block P d w opp.rate).1 = 0)
    (hmap : d.params = true)
    (hto : int_of (set_rate_reply P (step_block P d w opp.rate).2 opp.rate).a1 = -6) :
    (step_commit P d w opp.rate).1
      = int_of (set_rate_reply P (step_block P d w opp.rate).2 opp.rate).a0 ∧
    (step_commit P d w opp.rate).2.trace =
      Event.dev_err (Msg.set_rate_timeout opp.rate) ::
        Event.smc ROCKCHIP_SIP_DRAM_FREQ SHARE_PAGE_TYPE_DDR 0
          ROCKCHIP_SIP_CONFIG_DRAM_SET_RATE
          (set_rate_page (step_block P d w opp.rate).2.page opp.rate) ::
        (step_block P d w opp.rate).2.trace ∧
    (int_of (set_rate_reply P (step_block P d w opp.rate).2 opp.rate).a0 ≠ 0 →
      (rk3568_dmcfreq_target P dev d w freq flags).ret
        = int_of (set_rate_reply P (step_block P d w opp.rate).2 opp.rate).a0 ∧
      smc_calls ROCKCHIP_SIP_CONFIG_DRAM_GET_RATE
          (rk3568_dmcfreq_target P dev d w freq flags).w.trace
        = smc_calls ROCKCHIP_SIP_CONFIG_DRAM_GET_RATE w.trace ∧
      (rk3568_dmcfreq_target P dev d w freq flags).dmcfreq = d) ∧
    (int_of (set_rate_reply P (step_block P d w opp.rate).2 opp.rate).a0 = 0 →
      (rk3568_dmcfreq_target P dev d w freq flags).ret = 0 ∧
      smc_calls ROCKCHIP_SIP_CONFIG_DRAM_GET_RATE
          (rk3568_dmcfreq_target P dev d w freq flags).w.trace
        = smc_calls ROCKCHIP_SIP_CONFIG_DRAM_GET_RATE w.trace + 1) := by
  have hc : (step_commit P d w opp.rate).1
      = int_of (set_rate_reply P (step_block P d w opp.rate).2 opp.rate).a0 := by
    simp only [step_commit]
    rw [set_rate_mapped P d _ opp.rate hmap]
  have htr : (step_commit P d w opp.rate).2.trace =
      Event.dev_err (Msg.set_rate_timeout opp.rate) ::
        Event.smc ROCKCHIP_SIP_DRAM_FREQ SHARE_PAGE_TYPE_DDR 0
          ROCKCHIP_SIP_CONFIG_DRAM_SET_RATE
          (set_rate_page (step_block P d w opp.rate).2.page opp.rate) ::
        (step_block P d w opp.rate).2.trace := by
    simp only [step_commit]
    rw [set_rate_mapped P d _ opp.rate hmap, if_pos hto]
    rfl
  refine ⟨hc, htr, ?_, ?_⟩
  · intro h0
    have hset : (step_commit P d w opp.rate).1 ≠ 0 := by rw [hc]; exact h0
    rw [target_commit_failed P dev d w freq flags opp hscale hopp hne hval hblk hset]
    refine ⟨hc, ?_, rfl⟩
    simp only [out_pmu, out_unlock, mutex_unlock, rockchip_pmu_unblock, dev_err, World.emit,
      smc_calls, List.countP_cons]
    rw [countP_step_commit _ _ _ _ _ (fun _ => rfl) (fun _ => rfl)]
    simp only [step_block_trace, List.countP_cons]
    rw [countP_step_validate _ _ _ _ _ (fun _ => rfl) rfl]
    simp [is_dram_freq]
  · intro h0
    have hset : (step_commit P d w opp.rate).1 = 0 := by rw [hc]; exact h0
    rw [target_committed P dev d w freq flags opp hscale hopp hne hval hblk hset]
    have hg : smc_calls ROCKCHIP_SIP_CONFIG_DRAM_GET_RATE (step_confirm P d w opp.rate).2.trace
        = smc_calls ROCKCHIP_SIP_CONFIG_DRAM_GET_RATE w.trace + 1 := by
      have e1 : (step_confirm P d w opp.rate).2.trace =
          Event.smc ROCKCHIP_SIP_DRAM_FREQ SHARE_PAGE_TYPE_DDR 0
            ROCKCHIP_SIP_CONFIG_DRAM_GET_RATE (step_commit P d w opp.rate).2.page ::
            (step_commit P d w opp.rate).2.trace := by
        simp only [step_confirm, rk3568_dmc_get_rate, arm_smccc_smc]
        split <;> rfl
      rw [e1]
      simp only [smc_calls, List.countP_cons]
      rw [countP_step_commit _ _ _ _ _ (fun _ => rfl) (fun _ => rfl)]
      simp only [step_block_trace, List.countP_cons]
      rw [countP_step_validate _ _ _ _ _ (fun _ => rfl) rfl]
      simp [is_dram_freq]
    split <;>
    · refine ⟨rfl, ?_⟩
      simp only [out_pmu, out_unlock, mutex_unlock, rockchip_pmu_unblock, dev_warn, World.emit]
      simp only [smc_calls, List.countP_cons] at hg ⊢
      rw [hg]
      simp [is_dram_freq]

/-- A firmware answering SET_RATE with a0 = 0 and a1 = -6 (as a 64-bit word), which
nevertheless switches the clock: the timeout is logged, the status 0 is returned, and
the transition 324 MHz to 528 MHz completes with return value 0. -/
theorem C10_timeout_status_witness :
    (step_commit (demo_platform { cfg_good with set_a1 := 2 ^ 64 - 6 })
        ⟨true, 324000000, true⟩ (demo_world 324000000) 528000000).1 = 0 ∧
    (rk3568_dmcfreq_target (demo_platform { cfg_good with set_a1 := 2 ^ 64 - 6 })
        (demo_dev [324000000, 528000000, 1056000000]) ⟨true, 324000000, true⟩
        (demo_world 324000000) 528000000 0).ret = 0 :=
  have h := C10_timeout_status (demo_platform { cfg_good with set_a1 := 2 ^ 64 - 6 })
    (demo_dev [324000000, 528000000, 1056000000]) ⟨true, 324000000, true⟩
    (demo_world 324000000) 528000000 0 ⟨528000000, 900000⟩
    rfl rfl (by decide) (by decide) (by decide) rfl (by decide)
  ⟨h.1.trans (by decide), (h.2.2.2 (by decide)).1⟩

/-- The claim fails when the timeout code arrives with status register a0 = 0: the
SET_RATE reply of the run carries -6 in a1, yet `rk3568_dmc_set_rate` returns 0, and
`rk3568_dmcfreq_target` returns 0, issues the read-back GET_RATE and adopts its
528 MHz as the confirmed rate. -/
theorem C10_counterexample :
    int_of (set_rate_reply (demo_platform { cfg_good with set_a1 := 2 ^ 64 - 6 })
      (step_block (demo_platform { cfg_good with set_a1 := 2 ^ 64 - 6 })
        ⟨true, 324000000, true⟩ (demo_world 324000000) 528000000).2 528000000).a1 = -6 ∧
    (rk3568_dmc_set_rate (demo_platform { cfg_good with set_a1 := 2 ^ 64 - 6 })
      ⟨true, 324000000, true⟩
      (step_block (demo_platform { cfg_good with set_a1 := 2 ^ 64 - 6 })
        ⟨true, 324000000, true⟩ (demo_world 324000000) 528000000).2 528000000).1 = 0 ∧
    (rk3568_dmcfreq_target (demo_platform { cfg_good with set_a1 := 2 ^ 64 - 6 })
        (demo_dev [324000000, 528000000, 1056000000]) ⟨true, 324000000, true⟩
        (demo_world 324000000) 528000000 0).ret = 0 ∧
    smc_calls ROCKCHIP_SIP_CONFIG_DRAM_GET_RATE
      (rk3568_dmcfreq_target (demo_platform { cfg_good with set_a1 := 2 ^ 64 - 6 })
        (demo_dev [324000000, 528000000, 1056000000]) ⟨true, 324000000, true⟩
        (demo_world 324000000) 528000000 0).w.trace = 1 ∧
    (rk3568_dmcfreq_target (demo_platform { cfg_good with set_a1 := 2 ^ 64 - 6 })
        (demo_dev [324000000, 528000000, 1056000000]) ⟨true, 324000000, true⟩
        (demo_world 324000000) 528000000 0).dmcfreq.rate = 528000000 := by
  decide

/-! ## C12: commit page encoding -/

/-- C12. For every state of the shared page and every rate: with the page mapped,
`rk3568_dmc_set_rate` issues exactly one SMC, the SET_RATE call, and the page that call
sees holds `rate_hz mod 2^32` in `hz` and 0 in `lcdc_type`, `wait_flag1` and
`wait_flag0`, whatever they held before (the other fields are as they were); the value
returned is the status register a0 of that call, cast to `int`.  With the page not
mapped it leaves the world untouched (no call) and returns `-ENODEV`. -/
theorem C12_commit_page_encoding (P : Platform σ) (d : rk3568_dmcfreq) (w : World σ)
    (rate_hz : Nat) :
    (d.params = true →
      (rk3568_dmc_set_rate P d w rate_hz).2.trace =
        (if int_of (set_rate_reply P w rate_hz).a1 = -6
          then [Event.dev_err (Msg.set_rate_timeout rate_hz)] else []) ++
        Event.smc ROCKCHIP_SIP_DRAM_FREQ SHARE_PAGE_TYPE_DDR 0
          ROCKCHIP_SIP_CONFIG_DRAM_SET_RATE (set_rate_page w.page rate_hz) :: w.trace ∧
      smc_total (rk3568_dmc_set_rate P d w rate_hz).2.trace = smc_total w.trace + 1 ∧
      set_rate_page w.page rate_hz =
        { w.page with hz := rate_hz % 2 ^ 32, lcdc_type := 0, wait_flag1 := 0,
                      wait_flag0 := 0 } ∧
      (set_rate_reply P w rate_hz).a0 =
        (P.smc w.env ROCKCHIP_SIP_DRAM_FREQ SHARE_PAGE_TYPE_DDR 0
          ROCKCHIP_SIP_CONFIG_DRAM_SET_RATE (set_rate_page w.page rate_hz)).res.a0 % 2 ^ 64 ∧
      (rk3568_dmc_set_rate P d w rate_hz).1 = int_of (set_rate_reply P w rate_hz).a0) ∧
    (d.params = false →
      (rk3568_dmc_set_rate P d w rate_hz).2 = w ∧
      (rk3568_dmc_set_rate P d w rate_hz).1 = -ENODEV ∧
      (rk3568_dmc_set_rate P d w rate_hz).1 ≠ 0) := by
  constructor
  · intro hmap
    rw [set_rate_mapped P d w rate_hz hmap]
    refine ⟨?_, ?_, rfl, rfl, rfl⟩
    · split <;> rfl
    · split <;> simp [smc_total, dev_err, World.emit, arm_smccc_smc, is_smc]
  · intro hno
    simp [rk3568_dmc_set_rate, hno, ENODEV]

/-- A page holding arbitrary old values (display type 7, both flags 1) and the rate
2^32 + 528000000: the SET_RATE call sees hz = 528000000 and zeros in the three other
fields, and the status 5 of the firmware is the value returned. -/
theorem C12_commit_page_encoding_witness :
    (rk3568_dmc_set_rate (demo_platform { cfg_good with set_a0 := 5 }) ⟨true, 324000000, true⟩
        { env := 324000000, page := ⟨1, 7, 0, 0, 0, 0, 1, 1, 9⟩, trace := [] }
        (2 ^ 32 + 528000000)).2.trace =
      [Event.smc ROCKCHIP_SIP_DRAM_FREQ SHARE_PAGE_TYPE_DDR 0
        ROCKCHIP_SIP_CONFIG_DRAM_SET_RATE ⟨528000000, 0, 0, 0, 0, 0, 0, 0, 9⟩] ∧
    (rk3568_dmc_set_rate (demo_platform { cfg_good with set_a0 := 5 }) ⟨true, 324000000, true⟩
        { env := 324000000, page := ⟨1, 7, 0, 0, 0, 0, 1, 1, 9⟩, trace := [] }
        (2 ^ 32 + 528000000)).1 = 5 ∧
    (rk3568_dmc_set_rate (demo_platform cfg_good) ⟨false, 324000000, true⟩
        (demo_world 324000000) 528000000).1 = -ENODEV :=
  have h := C12_commit_page_encoding (demo_platform { cfg_good with set_a0 := 5 })
    ⟨true, 324000000, true⟩
    { env := 324000000, page := ⟨1, 7, 0, 0, 0, 0, 1, 1, 9⟩, trace := [] } (2 ^ 32 + 528000000)
  have h2 := C12_commit_page_encoding (demo_platform cfg_good) ⟨false, 324000000, true⟩
    (demo_world 324000000) 528000000
  ⟨(h.1 rfl).1.trans (by decide), (h.1 rfl).2.2.2.2.trans (by decide), (h2.2 rfl).2.1⟩

/-! ## C11: a probe whose OPP table is empty after step 4 -/

theorem probe_reaches_setup (P : Platform σ) (ks : kernel_services) (dev : device)
    (w : World σ)
    (hmem : ks.kzalloc_ok = true) (hedev : ks.edev_err = none)
    (hen : 0 ≤ ks.edev_enable)
    (hpage : (probe_alloc P ks w).ret = 0)
    (hrate : (probe_rate P ks w).1 ≠ 0) :
    rk3568_dmcfreq_probe P ks dev w =
      setup_devfreq ks (probe_build P ks dev w).1
        { (probe_data P ks w) with rate := (probe_reread P ks dev w).1, can_scale := true }
        (probe_reread P ks dev w).2 := by
  have hen2 : ¬ ks.edev_enable < 0 := not_lt.mpr hen
  simp only [probe_reread, probe_build, probe_data, probe_rate, probe_alloc] at hpage hrate ⊢
  simp only [rk3568_dmcfreq_probe, hmem, hedev, hen2, hpage]
  simp [hrate]

theorem setup_devfreq_empty (ks : kernel_services) (dev : device) (data : rk3568_dmcfreq)
    (w : World σ) (hempty : dev.opp_table = []) :
    setup_devfreq ks dev data w =
      add_devfreq_device ks { opp_table := [{ rate := data.rate, u_volt := 900000 }] } data w
        { rate := data.rate, u_volt := 900000 } := by
  obtain ⟨t⟩ := dev
  simp only at hempty
  subst hempty
  simp [setup_devfreq, devfreq_recommended_opp, dev_pm_opp_find_freq_ceil,
    dev_pm_opp_find_freq_floor, dev_pm_opp_add, opp_list_add,
    DEVFREQ_FLAG_LEAST_UPPER_BOUND, ENODEV, ERANGE]

/-- C11, as the code behaves: in a probe that gets its memory and event device, obtains
the shared page, reads a non-zero rate in step 3 and leaves step 4 with an empty OPP
table (every candidate rejected), the OPP table ends as the single entry at the rate
the driver ends with, which is the rate GET_RATE reports in the re-read after the test
sequence, at 900000 uV; `can_scale` ends true; and the probe returns 0 unless
`devm_devfreq_add_device` fails, whose error it returns. -/
theorem C11_empty_catalog_probe (P : Platform σ) (ks : kernel_services) (dev : device)
    (w : World σ)
    (hmem : ks.kzalloc_ok = true) (hedev : ks.edev_err = none)
    (hen : 0 ≤ ks.edev_enable)
    (hpage : (probe_alloc P ks w).ret = 0)
    (hrate : (probe_rate P ks w).1 ≠ 0)
    (hempty : (probe_build P ks dev w).1.opp_table = []) :
    (rk3568_dmcfreq_probe P ks dev w).dev.opp_table =
      [{ rate := (probe_reread P ks dev w).1, u_volt := 900000 }] ∧
    (rk3568_dmcfreq_probe P ks dev w).data.rate = (probe_reread P ks dev w).1 ∧
    (rk3568_dmcfreq_probe P ks dev w).data.can_scale = true ∧
    (rk3568_dmcfreq_probe P ks dev w).data.params = true ∧
    (rk3568_dmcfreq_probe P ks dev w).ret = ks.devfreq_add_err.getD 0 := by
  have hparams : (probe_alloc P ks w).data.params = true := by
    simp only [probe_alloc, rk3568_dmc_alloc_share_page] at hpage ⊢
    split at hpage
    · simp [ENODEV] at hpage
    · split at hpage
      · simp [ENOMEM] at hpage
      · rename_i h1 h2
        simp [h1, h2]
  rw [probe_reaches_setup P ks dev w hmem hedev hen hpage hrate,
    setup_devfreq_empty ks _ _ _ hempty]
  cases hadd : ks.devfreq_add_err with
  | none => simp [add_devfreq_device, hadd, probe_data, hparams]
  | some e => simp [add_devfreq_device, hadd, err_edev, probe_data, hparams]

/-- A firmware running the DDR at 396 MHz that rejects all four candidates: the probe
ends with the single OPP 396 MHz, `can_scale` true, return value 0. -/
theorem C11_empty_catalog_probe_witness :
    (rk3568_dmcfreq_probe
        (demo_probe_platform { cfg_good with rejects := candidate_hz, set_applies := false })
        ks_good ⟨[]⟩ (demo_world 396000000)).dev.opp_table = [⟨396000000, 900000⟩] ∧
    (rk3568_dmcfreq_probe
        (demo_probe_platform { cfg_good with rejects := candidate_hz, set_applies := false })
        ks_good ⟨[]⟩ (demo_world 396000000)).data.can_scale = true :=
  have h := C11_empty_catalog_probe
    (demo_probe_platform { cfg_good with rejects := candidate_hz, set_applies := false })
    ks_good ⟨[]⟩ (demo_world 396000000) rfl rfl (by decide) (by decide) (by decide)
    (by decide)
  ⟨h.1.trans (by decide), h.2.2.1⟩

/-- The claim fails on the flag.  A firmware running the DDR at 396 MHz grants the
shared page, reports 396 MHz and rejects all four candidates, so the OPP table is empty
after step 4; the probe succeeds with the single OPP 396 MHz, and `can_scale` is true,
not false. -/
theorem C11_counterexample :
    (probe_alloc
        (demo_probe_platform { cfg_good with rejects := candidate_hz, set_applies := false })
        ks_good (demo_world 396000000)).ret = 0 ∧
    (probe_rate
        (demo_probe_platform { cfg_good with rejects := candidate_hz, set_applies := false })
        ks_good (demo_world 396000000)).1 = 396000000 ∧
    (probe_build
        (demo_probe_platform { cfg_good with rejects := candidate_hz, set_applies := false })
        ks_good ⟨[]⟩ (demo_world 396000000)).1.opp_table = [] ∧
    (rk3568_dmcfreq_probe
        (demo_probe_platform { cfg_good with rejects := candidate_hz, set_applies := false })
        ks_good ⟨[]⟩ (demo_world 396000000)).ret = 0 ∧
    (rk3568_dmcfreq_probe
        (demo_probe_platform { cfg_good with rejects := candidate_hz, set_applies := false })
        ks_good ⟨[]⟩ (demo_world 396000000)).dev.opp_table = [⟨396000000, 900000⟩] ∧
    ¬ (rk3568_dmcfreq_probe
        (demo_probe_platform { cfg_good with rejects := candidate_hz, set_applies := false })
        ks_good ⟨[]⟩ (demo_world 396000000)).data.can_scale = false := by
  decide

end RK3568Dmc
